import Mathlib

/-!
Shallow embedding, in Lean 4, of the parts of the
`llm-interactions-for-structured-outputs` repository that the verified
claims are about: the per-provider retry helpers and JSON-parsing glue in
`process_structured_output/providers/*.py`, the Pydantic response models in
`process_structured_output/models/country.py`, the upsert helpers in
`process_structured_output/db/operations.py`, the batch CLI in
`process_structured_output/cli_all_countries_mistral.py`, and the FastAPI
CRUD layer in `backend/app` (list envelopes, detail endpoints, ILIKE name
lookup).

Conventions used throughout:
* Python exceptions are values of `PyExc`; a Python function that may raise
  is embedded as a function into `Except PyExc _`.
* Python floats are embedded as rationals (only order comparisons on them
  occur in the embedded code); Python ints as `Int`.
* Third-party library calls (the vendor SDK call, `json.loads`, the regex
  sanitizer) are parameters of the embedded functions: the embedding is of
  this repository's code, which composes and wraps those calls.
* Side effects that the claims mention (API call attempts, `time.sleep`)
  are made observable as an event trace returned next to the result.
-/

/-- Python exception values that the embedded code can raise or handle.
Each carries the exception message (except `ZeroDivisionError`, whose
message is fixed). -/
inductive PyExc where
  | jsonDecodeError (msg : String)
  | validationError (msg : String)
  | valueError (msg : String)
  | typeError (msg : String)
  | zeroDivisionError
  | pgError (msg : String)
  | otherError (msg : String)
  deriving Repr, DecidableEq

/-- Does an `except ValueError:` clause catch this exception? -/
def PyExc.isValueError : PyExc → Bool
  | .valueError _ => true
  | _ => false

/-- Does an `except psycopg2.Error:` clause catch this exception? -/
def PyExc.isPgError : PyExc → Bool
  | .pgError _ => true
  | _ => false

/-- `str(e)` on an exception: Python renders the message. -/
def PyExc.pyStr : PyExc → String
  | .jsonDecodeError m => m
  | .validationError m => m
  | .valueError m => m
  | .typeError m => m
  | .zeroDivisionError => "division by zero"
  | .pgError m => m
  | .otherError m => m

/-- `str(x)` on an `Optional[Exception]`: `None` renders as `"None"`. -/
def pyStrOpt : Option PyExc → String
  | Option.none => "None"
  | Option.some e => e.pyStr

/-- Python scalar values as they appear in the city dictionaries handled by
`_sanitize_city_data` (the sanitizer only ever inspects `None` and `str`
values; every other value is left untouched, so one constructor per
remaining JSON scalar type suffices). -/
inductive PyVal where
  | none
  | str (s : String)
  | int (n : Int)
  | float (q : ℚ)
  | bool (b : Bool)
  deriving Repr, DecidableEq

/-- `d[k]` lookup on a Python dict, embedded as an association list
(first binding wins; a real dict has each key at most once). -/
def dictGet (k : String) : List (String × PyVal) → Option PyVal
  | [] => Option.none
  | (k', v) :: rest => if k' = k then Option.some v else dictGet k rest

/-- `d[k] = v` assignment on a key already present: replace the value of
the first binding of `k`. -/
def dictSet (k : String) (v : PyVal) : List (String × PyVal) → List (String × PyVal)
  | [] => []
  | (k', v') :: rest =>
      if k' = k then (k', v) :: rest else (k', v') :: dictSet k v rest

/-- The test `code is None or (isinstance(code, str) and len(code) < 3)`
from `_sanitize_city_data`. -/
def airportCodeInvalid : PyVal → Bool
  | PyVal.none => true
  | PyVal.str s => s.length < 3
  | _ => false

/-- `_sanitize_city_data` from
`providers/openai_provider.py` (the copy in `providers/mistral_provider.py`
is textually identical): if the dict has an `airport_code` key whose value
is `None` or a string shorter than 3 characters, set it to `None`;
otherwise return the dict unchanged. -/
def sanitize_city_data (city : List (String × PyVal)) : List (String × PyVal) :=
  match dictGet "airport_code" city with
  | Option.none => city
  | Option.some code =>
      if airportCodeInvalid code then dictSet "airport_code" PyVal.none city
      else city

/-- Observable actions of a retry loop: the n-th call of the wrapped
function (0-based), or a `time.sleep` of the given number of seconds. -/
inductive RetryEvent where
  | call (attempt : Nat)
  | sleep (seconds : ℚ)
  deriving Repr, DecidableEq

/-- `MAX_RETRIES` constant shared by all provider files. -/
def MAX_RETRIES : Nat := 3

/-- `RETRY_DELAY` constant (seconds) shared by all provider files. -/
def RETRY_DELAY : ℚ := 1

/-- Number of `.call` events in a trace. -/
def numCalls (trace : List RetryEvent) : Nat :=
  (trace.filter fun e => match e with | RetryEvent.call _ => true | _ => false).length

/-- Loop body of the OpenAI/Mistral/Groq-style retry helper
(`for attempt in range(max_retries): try: return call() except Exception`):
`remaining` counts the loop iterations still to run (`max_retries -
attempt`), `attempt` is the current 0-based index, `lastError` the
`last_error` variable, `trace` the events so far. On exhaustion it raises
`ValueError(f"Failed after {max_retries} retries: {last_error}")`. -/
def retryCatchAllAux {α : Type} (call : Nat → Except PyExc α) (maxRetries : Nat) :
    Nat → Nat → Option PyExc → List RetryEvent → Except PyExc α × List RetryEvent
  | 0, _, lastError, trace =>
      (Except.error (PyExc.valueError
        ("Failed after " ++ toString maxRetries ++ " retries: " ++ pyStrOpt lastError)),
       trace)
  | remaining + 1, attempt, _, trace =>
      match call attempt with
      | Except.ok a => (Except.ok a, trace ++ [RetryEvent.call attempt])
      | Except.error e =>
          let traceAfterCall := trace ++ [RetryEvent.call attempt]
          let traceAfterSleep :=
            if 1 ≤ remaining then traceAfterCall ++ [RetryEvent.sleep RETRY_DELAY]
            else traceAfterCall
          retryCatchAllAux call maxRetries remaining (attempt + 1) (Option.some e)
            traceAfterSleep

/-- `OpenAIProvider.get_country_info_with_retry` /
`get_cities_info_with_retry` (and the identical helpers in
`mistral_provider.py` and `groq_provider.py`): retry the underlying call,
catching every exception, sleeping `RETRY_DELAY` between attempts, for
`MAX_RETRIES` attempts. The underlying vendor call is the parameter
`call`, giving the outcome of the n-th attempt. -/
def openai_get_country_info_with_retry {α : Type} (call : Nat → Except PyExc α) :
    Except PyExc α × List RetryEvent :=
  retryCatchAllAux call MAX_RETRIES MAX_RETRIES 0 Option.none []

/-- Loop body of the Anthropic/Google/AI21-style retry helper: identical to
`retryCatchAllAux` except that the `except` clause catches only
`ValueError`; any other exception propagates out of the loop at once. On
exhaustion it raises `ValueError(f"Failed after {MAX_RETRIES} attempts:
{last_error}")`. -/
def retryCatchValueErrorAux {α : Type} (call : Nat → Except PyExc α) (maxRetries : Nat) :
    Nat → Nat → Option PyExc → List RetryEvent → Except PyExc α × List RetryEvent
  | 0, _, lastError, trace =>
      (Except.error (PyExc.valueError
        ("Failed after " ++ toString maxRetries ++ " attempts: " ++ pyStrOpt lastError)),
       trace)
  | remaining + 1, attempt, _, trace =>
      match call attempt with
      | Except.ok a => (Except.ok a, trace ++ [RetryEvent.call attempt])
      | Except.error e =>
          if e.isValueError then
            let traceAfterCall := trace ++ [RetryEvent.call attempt]
            let traceAfterSleep :=
              if 1 ≤ remaining then traceAfterCall ++ [RetryEvent.sleep RETRY_DELAY]
              else traceAfterCall
            retryCatchValueErrorAux call maxRetries remaining (attempt + 1)
              (Option.some e) traceAfterSleep
          else
            (Except.error e, trace ++ [RetryEvent.call attempt])

/-- `AnthropicProvider.get_country_info_with_retry` /
`get_cities_info_with_retry` (and the identical helpers in
`google_provider.py` and `ai21_provider.py`): retry the underlying call,
catching only `ValueError`. -/
def anthropic_get_country_info_with_retry {α : Type} (call : Nat → Except PyExc α) :
    Except PyExc α × List RetryEvent :=
  retryCatchValueErrorAux call MAX_RETRIES MAX_RETRIES 0 Option.none []

/-- A `psycopg2` connection as the upsert helpers in `db/operations.py`
use it: `committed` is the table state visible outside the transaction,
`pending` the in-transaction state, `closed` whether `conn.close()` has
run. The table-state type `σ` is abstract. -/
structure PgConn (σ : Type) where
  committed : σ
  pending : σ
  closed : Bool
  deriving Repr, DecidableEq

/-- Shared skeleton of `upsert_ai_model`, `upsert_continent`,
`upsert_country` and `upsert_city` (`db/operations.py`): open a
connection, run the upsert statement inside a transaction, commit and
return the fetched id; on `psycopg2.Error` roll back and re-raise; raise
`ValueError` (after the commit) when no row came back; close the
connection in every case. `stmt` embeds `cursor.execute` plus
`cursor.fetchone`: from the in-transaction state it produces either a
database error or the new state and the fetched id (`None` when no row
was returned). -/
def upsertSkeleton {σ : Type} (entity : String)
    (stmt : σ → Except String (σ × Option Int)) (initial : σ) :
    Except PyExc Int × PgConn σ :=
  let conn : PgConn σ := { committed := initial, pending := initial, closed := false }
  match stmt conn.pending with
  | Except.error e =>
      (Except.error (PyExc.pgError e),
       { conn with pending := conn.committed, closed := true })
  | Except.ok (newState, result) =>
      let conn : PgConn σ := { committed := newState, pending := newState, closed := true }
      match result with
      | Option.none =>
          (Except.error (PyExc.valueError
            ("Failed to upsert " ++ entity ++ " - no ID returned")), conn)
      | Option.some rid => (Except.ok rid, conn)

/-- `upsert_ai_model` from `db/operations.py`. -/
def upsert_ai_model {σ : Type} (stmt : σ → Except String (σ × Option Int))
    (initial : σ) : Except PyExc Int × PgConn σ :=
  upsertSkeleton "ai_model" stmt initial

/-- `upsert_continent` from `db/operations.py`. -/
def upsert_continent {σ : Type} (stmt : σ → Except String (σ × Option Int))
    (initial : σ) : Except PyExc Int × PgConn σ :=
  upsertSkeleton "continent" stmt initial

/-- `upsert_country` from `db/operations.py` (its transaction/error
skeleton; the statement it runs is embedded separately as
`upsertCountryStmt`). -/
def upsert_country {σ : Type} (stmt : σ → Except String (σ × Option Int))
    (initial : σ) : Except PyExc Int × PgConn σ :=
  upsertSkeleton "country" stmt initial

/-- `upsert_city` from `db/operations.py`. -/
def upsert_city {σ : Type} (stmt : σ → Except String (σ × Option Int))
    (initial : σ) : Except PyExc Int × PgConn σ :=
  upsertSkeleton "city" stmt initial

/-- The per-country loop of `cli_all_countries_mistral.main`: call
`process_country` on each country in order; a failure is recorded in
`results` and the loop continues with the next country. `process` is the
outcome of `process_country` for each country name; `ρ` its result type. -/
def batchResults {ρ : Type} (process : String → Except PyExc ρ) :
    List String → List (String × Except PyExc ρ)
  | [] => []
  | c :: rest => (c, process c) :: batchResults process rest

/-- The `failure_count` accumulated by the loop. -/
def failureCount {ρ : Type} (results : List (String × Except PyExc ρ)) : Nat :=
  (results.filter fun p =>
    match p.2 with | Except.error _ => true | _ => false).length

/-- `main` from `cli_all_countries_mistral.py`, given the (already loaded)
list of assigned countries: on `--dry-run` return 0 before the loop;
otherwise run the loop over every country, then print the summary — whose
`elapsed / len(countries)` average raises `ZeroDivisionError` when the
country list is empty — and return 0 when no country failed, 1 otherwise. -/
def cli_all_countries_mistral_main {ρ : Type} (process : String → Except PyExc ρ)
    (countries : List String) (dryRun : Bool) : Except PyExc Int :=
  if dryRun then Except.ok 0
  else
    let results := batchResults process countries
    if countries.length = 0 then Except.error PyExc.zeroDivisionError
    else if failureCount results = 0 then Except.ok 0
    else Except.ok 1

/-- ASCII case folding, modelling how `ILIKE` compares characters. -/
def charFoldEq (p c : Char) : Bool := p.toLower = c.toLower

/-- PostgreSQL `value ILIKE pattern` matching (pattern is the first
argument): `%` matches any substring (equivalently, some suffix of the
remaining value matches the rest of the pattern), `_` matches any single
character, `\` escapes the next pattern character, and all character
comparisons are case-insensitive. A pattern ending in a bare `\` is an
error in PostgreSQL; here it matches nothing. -/
def ilikeMatch : List Char → List Char → Bool
  | [], s => s.isEmpty
  | p0 :: p, s =>
      if p0 = '%' then s.tails.any fun suffix => ilikeMatch p suffix
      else if p0 = '_' then
        match s with
        | [] => false
        | _ :: s' => ilikeMatch p s'
      else if p0 = '\\' then
        match p with
        | [] => false
        | c :: p' =>
            match s with
            | [] => false
            | d :: s' => charFoldEq c d && ilikeMatch p' s'
      else
        match s with
        | [] => false
        | d :: s' => charFoldEq p0 d && ilikeMatch p s'

/-- `column.ilike(pattern)` on strings (SQLAlchemy passes the argument
through as the pattern, unescaped). -/
def ilike (value pattern : String) : Bool := ilikeMatch pattern.data value.data

/-- Lower-cased character list of a string (ASCII folding). -/
def foldLower (s : String) : List Char := s.data.map Char.toLower

/-- Two strings differ only in letter case. -/
def caseVariant (s t : String) : Bool := foldLower s == foldLower t

/-- The string contains no `LIKE` wildcard or escape characters. -/
def noWildcards (s : String) : Bool :=
  s.data.all fun c => !(c = '%' || c = '_' || c = '\\')

/-- A row of the `countries` table as the embedded endpoints consult it:
primary key, unique name, and the two provenance FKs (the remaining data
columns are not inspected by any endpoint logic being verified). -/
structure CountryRow where
  country_id : Int
  name : String
  continent_id : Option Int
  ai_model_id : Option Int
  deriving Repr, DecidableEq

/-- A row of the `continents` table (key, unique name). -/
structure ContinentRow where
  continent_id : Int
  continent_name : String
  deriving Repr, DecidableEq

/-- A row of the `cities` table (key, name, owning country). -/
structure CityRow where
  city_id : Int
  name : String
  country_id : Int
  deriving Repr, DecidableEq

/-- A row of the `ai_models` table. -/
structure AIModelRow where
  ai_model_id : Int
  model_provider : String
  model_name : String
  deriving Repr, DecidableEq

/-- A row of the `glossary` table. -/
structure GlossaryRow where
  glossary_id : Int
  entry : String
  deriving Repr, DecidableEq

/-- `Result.scalar_one_or_none()` on the rows a query returned: `None`
for zero rows, the row for exactly one, and a `MultipleResultsFound`
error for more than one. -/
def scalarOneOrNone {α : Type} : List α → Except PyExc (Option α)
  | [] => Except.ok Option.none
  | [r] => Except.ok (Option.some r)
  | _ :: _ :: _ => Except.error (PyExc.otherError "MultipleResultsFound")

/-- `get_country` from `backend/app/crud/country.py`: select by id. -/
def get_country (db : List CountryRow) (countryId : Int) :
    Except PyExc (Option CountryRow) :=
  scalarOneOrNone (db.filter fun r => r.country_id = countryId)

/-- `get_country_by_name` from `backend/app/crud/country.py`:
`select(Country).where(Country.name.ilike(name))`, then
`scalar_one_or_none()`. -/
def get_country_by_name (db : List CountryRow) (name : String) :
    Except PyExc (Option CountryRow) :=
  scalarOneOrNone (db.filter fun r => ilike r.name name)

/-- `get_countries`: all rows ordered by name. -/
def get_countries (db : List CountryRow) : List CountryRow :=
  db.mergeSort fun a b => decide (a.name ≤ b.name)

/-- `get_countries_by_continent_id`: rows of one continent, by name. -/
def get_countries_by_continent_id (db : List CountryRow) (continentId : Int) :
    List CountryRow :=
  (db.filter fun r => r.continent_id = Option.some continentId).mergeSort
    fun a b => decide (a.name ≤ b.name)

/-- `get_countries_by_continent_name`: join with `continents` on the FK,
filtering the continent name with `ILIKE`. -/
def get_countries_by_continent_name (db : List CountryRow)
    (continents : List ContinentRow) (continentName : String) : List CountryRow :=
  (db.filter fun r => continents.any fun c =>
      r.continent_id = Option.some c.continent_id
        && ilike c.continent_name continentName).mergeSort
    fun a b => decide (a.name ≤ b.name)

/-- `get_city` from `backend/app/crud/city.py`. -/
def get_city (db : List CityRow) (cityId : Int) : Except PyExc (Option CityRow) :=
  scalarOneOrNone (db.filter fun c => c.city_id = cityId)

/-- `get_cities`: all rows ordered by name. -/
def get_cities (db : List CityRow) : List CityRow :=
  db.mergeSort fun a b => decide (a.name ≤ b.name)

/-- `get_cities_by_country_id`. -/
def get_cities_by_country_id (db : List CityRow) (countryId : Int) : List CityRow :=
  (db.filter fun c => c.country_id = countryId).mergeSort
    fun a b => decide (a.name ≤ b.name)

/-- `get_continents`: all rows ordered by id. -/
def get_continents (db : List ContinentRow) : List ContinentRow :=
  db.mergeSort fun a b => decide (a.continent_id ≤ b.continent_id)

/-- `get_ai_models`: all rows ordered by id. -/
def get_ai_models (db : List AIModelRow) : List AIModelRow :=
  db.mergeSort fun a b => decide (a.ai_model_id ≤ b.ai_model_id)

/-- `get_all_glossary_entries`: all rows ordered by entry. -/
def get_all_glossary_entries (db : List GlossaryRow) : List GlossaryRow :=
  db.mergeSort fun a b => decide (a.entry ≤ b.entry)

/-- `CountryListResponse` (`backend/app/schemas/country.py`): the list
field is named `countries`, next to `count`. -/
structure CountryListResponse where
  countries : List CountryRow
  count : Nat
  deriving Repr, DecidableEq

/-- `CityListResponse` (`backend/app/schemas/city.py`). -/
structure CityListResponse where
  cities : List CityRow
  count : Nat
  deriving Repr, DecidableEq

/-- `ContinentListResponse` (`backend/app/schemas/continent.py`). -/
structure ContinentListResponse where
  continents : List ContinentRow
  count : Nat
  deriving Repr, DecidableEq

/-- `AIModelListResponse` (`backend/app/schemas/ai_model.py`). -/
structure AIModelListResponse where
  ai_models : List AIModelRow
  count : Nat
  deriving Repr, DecidableEq

/-- `GlossaryListResponse` (`backend/app/schemas/glossary.py`). -/
structure GlossaryListResponse where
  glossary : List GlossaryRow
  count : Nat
  deriving Repr, DecidableEq

/-- The JSON keys under which Pydantic serializes `CountryListResponse`:
one key per declared field, in declaration order. -/
def countryListResponseKeys : List String := ["countries", "count"]

/-- JSON keys of a serialized `CityListResponse`. -/
def cityListResponseKeys : List String := ["cities", "count"]

/-- JSON keys of a serialized `ContinentListResponse`. -/
def continentListResponseKeys : List String := ["continents", "count"]

/-- JSON keys of a serialized `AIModelListResponse`. -/
def aiModelListResponseKeys : List String := ["ai_models", "count"]

/-- JSON keys of a serialized `GlossaryListResponse`. -/
def glossaryListResponseKeys : List String := ["glossary", "count"]

/-- Outcome of a FastAPI endpoint: a response body, an `HTTPException`
(status code and detail), or an uncaught exception (a 500). -/
inductive ApiResult (α : Type) where
  | ok (body : α)
  | httpError (status : Nat) (detail : String)
  | serverError (e : PyExc)
  deriving Repr, DecidableEq

/-- `list_countries` endpoint (`backend/app/api/v1/countries.py`). -/
def list_countries (db : List CountryRow) : CountryListResponse :=
  { countries := get_countries db, count := (get_countries db).length }

/-- `get_countries_by_continent_id_endpoint`. -/
def get_countries_by_continent_id_endpoint (db : List CountryRow)
    (continentId : Int) : CountryListResponse :=
  { countries := get_countries_by_continent_id db continentId,
    count := (get_countries_by_continent_id db continentId).length }

/-- `get_countries_by_continent_name_endpoint`. -/
def get_countries_by_continent_name_endpoint (db : List CountryRow)
    (continents : List ContinentRow) (continentName : String) : CountryListResponse :=
  { countries := get_countries_by_continent_name db continents continentName,
    count := (get_countries_by_continent_name db continents continentName).length }

/-- `list_cities` endpoint (`backend/app/api/v1/cities.py`). -/
def list_cities (db : List CityRow) : CityListResponse :=
  { cities := get_cities db, count := (get_cities db).length }

/-- `get_cities_by_country_id_endpoint`. -/
def get_cities_by_country_id_endpoint (db : List CityRow) (countryId : Int) :
    CityListResponse :=
  { cities := get_cities_by_country_id db countryId,
    count := (get_cities_by_country_id db countryId).length }

/-- `list_continents` endpoint (`backend/app/api/v1/continents.py`). -/
def list_continents (db : List ContinentRow) : ContinentListResponse :=
  { continents := get_continents db, count := (get_continents db).length }

/-- `list_ai_models` endpoint (`backend/app/api/v1/ai_models.py`). -/
def list_ai_models (db : List AIModelRow) : AIModelListResponse :=
  { ai_models := get_ai_models db, count := (get_ai_models db).length }

/-- `list_glossary` endpoint (`backend/app/api/v1/glossary.py`). -/
def list_glossary (db : List GlossaryRow) : GlossaryListResponse :=
  { glossary := get_all_glossary_entries db,
    count := (get_all_glossary_entries db).length }

/-- `get_country_by_id` endpoint (`backend/app/api/v1/countries.py`):
404 `"Country not found"` when the id misses, the row otherwise; a
`MultipleResultsFound` from the CRUD layer is uncaught. -/
def get_country_by_id (db : List CountryRow) (countryId : Int) :
    ApiResult CountryRow :=
  match get_country db countryId with
  | Except.error e => ApiResult.serverError e
  | Except.ok Option.none => ApiResult.httpError 404 "Country not found"
  | Except.ok (Option.some r) => ApiResult.ok r

/-- `get_country_by_name_endpoint` (`backend/app/api/v1/countries.py`). -/
def get_country_by_name_endpoint (db : List CountryRow) (countryName : String) :
    ApiResult CountryRow :=
  match get_country_by_name db countryName with
  | Except.error e => ApiResult.serverError e
  | Except.ok Option.none => ApiResult.httpError 404 "Country not found"
  | Except.ok (Option.some r) => ApiResult.ok r

/-- `get_city_by_id` endpoint (`backend/app/api/v1/cities.py`). -/
def get_city_by_id (db : List CityRow) (cityId : Int) : ApiResult CityRow :=
  match get_city db cityId with
  | Except.error e => ApiResult.serverError e
  | Except.ok Option.none => ApiResult.httpError 404 "City not found"
  | Except.ok (Option.some r) => ApiResult.ok r

/-- A decoded JSON value as Python `json.loads` produces it: dicts,
lists, strings, numbers (Python keeps ints and floats distinct), booleans
and `None`. -/
inductive Json where
  | obj (fields : List (String × Json))
  | arr (items : List Json)
  | str (s : String)
  | int (n : Int)
  | float (q : ℚ)
  | bool (b : Bool)
  | null

/-- Python truthiness of a decoded JSON value, as tested by
`if not data:` in the providers: falsy values are the empty dict, the
empty list, the empty string, numeric zero, `False` and `None`. -/
def Json.falsy : Json → Bool
  | Json.obj [] => true
  | Json.arr [] => true
  | Json.str s => s.isEmpty
  | Json.int n => decide (n = 0)
  | Json.float q => decide (q = 0)
  | Json.bool b => !b
  | Json.null => true
  | _ => false

/-- Key lookup in a decoded JSON object (dict keys are unique, the first
binding wins). -/
def jsonGet (k : String) : List (String × Json) → Option Json
  | [] => Option.none
  | (k', v) :: rest => if k' = k then Option.some v else jsonGet k rest

/-- Key update in a decoded JSON object. -/
def jsonSet (k : String) (v : Json) : List (String × Json) → List (String × Json)
  | [] => []
  | (k', v') :: rest =>
      if k' = k then (k', v) :: rest else (k', v') :: jsonSet k v rest

/-- Pydantic strict-mode `str` field: only a JSON string is accepted. -/
def asStr : Json → Except String String
  | Json.str s => Except.ok s
  | _ => Except.error "Input should be a valid string"

/-- Pydantic strict-mode `bool` field. -/
def asBool : Json → Except String Bool
  | Json.bool b => Except.ok b
  | _ => Except.error "Input should be a valid boolean"

/-- Pydantic strict-mode `float` field (strict mode still accepts an
int for a float field). -/
def asFloat : Json → Except String ℚ
  | Json.float q => Except.ok q
  | Json.int n => Except.ok (n : ℚ)
  | _ => Except.error "Input should be a valid number"

/-- Pydantic strict-mode `int` field (bools are separate values here, as
Pydantic refuses them for int fields). -/
def asInt : Json → Except String Int
  | Json.int n => Except.ok n
  | _ => Except.error "Input should be a valid integer"

/-- A required Pydantic field: missing keys are a validation error. -/
def requiredField (fields : List (String × Json)) (k : String) :
    Except String Json :=
  match jsonGet k fields with
  | Option.some v => Except.ok v
  | Option.none => Except.error ("Field required: " ++ k)

/-- Required `str` field with `max_length`. -/
def reqStr (fields : List (String × Json)) (k : String) (maxLen : Nat) :
    Except String String := do
  let v ← requiredField fields k
  let s ← asStr v
  if s.length ≤ maxLen then Except.ok s
  else Except.error (k ++ ": string too long")

/-- Required `bool` field. -/
def reqBool (fields : List (String × Json)) (k : String) : Except String Bool := do
  let v ← requiredField fields k
  asBool v

/-- Required `float` field with a range constraint. -/
def reqFloat (fields : List (String × Json)) (k : String) (check : ℚ → Bool) :
    Except String ℚ := do
  let v ← requiredField fields k
  let q ← asFloat v
  if check q then Except.ok q else Except.error (k ++ ": out of range")

/-- Required `int` field with a range constraint. -/
def reqInt (fields : List (String × Json)) (k : String) (check : Int → Bool) :
    Except String Int := do
  let v ← requiredField fields k
  let n ← asInt v
  if check n then Except.ok n else Except.error (k ++ ": out of range")

/-- Optional `float | None` field with a range constraint (missing or
`null` become `None`; constraints are not applied to the default). -/
def optFloat (fields : List (String × Json)) (k : String) (check : ℚ → Bool) :
    Except String (Option ℚ) :=
  match jsonGet k fields with
  | Option.none => Except.ok Option.none
  | Option.some Json.null => Except.ok Option.none
  | Option.some v => do
      let q ← asFloat v
      if check q then Except.ok (Option.some q)
      else Except.error (k ++ ": out of range")

/-- Optional `int | None` field with a range constraint. -/
def optInt (fields : List (String × Json)) (k : String) (check : Int → Bool) :
    Except String (Option Int) :=
  match jsonGet k fields with
  | Option.none => Except.ok Option.none
  | Option.some Json.null => Except.ok Option.none
  | Option.some v => do
      let n ← asInt v
      if check n then Except.ok (Option.some n)
      else Except.error (k ++ ": out of range")

/-- The `airport_code` field of `CityInfo`: `str | None` with
`min_length=3, max_length=3`. -/
def optAirportCode (fields : List (String × Json)) :
    Except String (Option String) :=
  match jsonGet "airport_code" fields with
  | Option.none => Except.ok Option.none
  | Option.some Json.null => Except.ok Option.none
  | Option.some v => do
      let s ← asStr v
      if 3 ≤ s.length && s.length ≤ 3 then Except.ok (Option.some s)
      else Except.error "airport_code: wrong length"

/-- `CountryInfo` (`models/country.py`): the validated country record.
Floats are rationals. -/
structure CountryInfo where
  description : String
  interesting_fact : String
  area_sq_mile : ℚ
  area_sq_km : ℚ
  population : Int
  ppp : ℚ
  life_expectancy : ℚ
  travel_risk_level : String
  global_peace_index_score : ℚ
  global_peace_index_rank : Int
  happiness_index_score : ℚ
  happiness_index_rank : Int
  gdp : ℚ
  gdp_growth_rate : ℚ
  inflation_rate : ℚ
  unemployment_rate : ℚ
  govt_debt : ℚ
  credit_rating : String
  poverty_rate : ℚ
  gini_coefficient : ℚ
  military_spending : ℚ
  deriving Repr, DecidableEq

/-- Pydantic validation of `CountryInfo(**fields)` with the declared
strict types and `Field` constraints of `models/country.py`. (Pydantic
reports all failing fields at once; only success vs failure matters
here, so the first failure is reported.) -/
def validateCountryInfo (fields : List (String × Json)) :
    Except String CountryInfo := do
  let description ← reqStr fields "description" 250
  let interesting_fact ← reqStr fields "interesting_fact" 250
  let area_sq_mile ← reqFloat fields "area_sq_mile" fun q => 0 < q
  let area_sq_km ← reqFloat fields "area_sq_km" fun q => 0 < q
  let population ← reqInt fields "population" fun n => 0 < n
  let ppp ← reqFloat fields "ppp" fun q => 0 ≤ q
  let life_expectancy ← reqFloat fields "life_expectancy" fun q => 0 < q && q ≤ 150
  let travel_risk_level ← reqStr fields "travel_risk_level" 50
  let global_peace_index_score ←
    reqFloat fields "global_peace_index_score" fun q => 0 ≤ q
  let global_peace_index_rank ←
    reqInt fields "global_peace_index_rank" fun n => 1 ≤ n
  let happiness_index_score ←
    reqFloat fields "happiness_index_score" fun q => 0 ≤ q
  let happiness_index_rank ←
    reqInt fields "happiness_index_rank" fun n => 1 ≤ n
  let gdp ← reqFloat fields "gdp" fun q => 0 ≤ q
  let gdp_growth_rate ← reqFloat fields "gdp_growth_rate" fun _ => true
  let inflation_rate ← reqFloat fields "inflation_rate" fun _ => true
  let unemployment_rate ← reqFloat fields "unemployment_rate" fun q => 0 ≤ q
  let govt_debt ← reqFloat fields "govt_debt" fun q => 0 ≤ q
  let credit_rating ← reqStr fields "credit_rating" 10
  let poverty_rate ← reqFloat fields "poverty_rate" fun q => 0 ≤ q
  let gini_coefficient ←
    reqFloat fields "gini_coefficient" fun q => 0 ≤ q && q ≤ 100
  let military_spending ← reqFloat fields "military_spending" fun q => 0 ≤ q
  Except.ok
    { description := description, interesting_fact := interesting_fact,
      area_sq_mile := area_sq_mile, area_sq_km := area_sq_km,
      population := population, ppp := ppp,
      life_expectancy := life_expectancy,
      travel_risk_level := travel_risk_level,
      global_peace_index_score := global_peace_index_score,
      global_peace_index_rank := global_peace_index_rank,
      happiness_index_score := happiness_index_score,
      happiness_index_rank := happiness_index_rank, gdp := gdp,
      gdp_growth_rate := gdp_growth_rate, inflation_rate := inflation_rate,
      unemployment_rate := unemployment_rate, govt_debt := govt_debt,
      credit_rating := credit_rating, poverty_rate := poverty_rate,
      gini_coefficient := gini_coefficient,
      military_spending := military_spending }

/-- `CityInfo` (`models/country.py`): the validated city record. -/
structure CityInfo where
  name : String
  is_capital : Bool
  description : String
  interesting_fact : String
  area_sq_mile : ℚ
  area_sq_km : ℚ
  population : Int
  sci_score : Option ℚ
  sci_rank : Option Int
  numbeo_si : Option ℚ
  numbeo_ci : Option ℚ
  airport_code : Option String
  deriving Repr, DecidableEq

/-- Pydantic validation of `CityInfo(**fields)` per `models/country.py`. -/
def validateCityInfo (fields : List (String × Json)) : Except String CityInfo := do
  let name ← reqStr fields "name" 100
  let is_capital ← reqBool fields "is_capital"
  let description ← reqStr fields "description" 250
  let interesting_fact ← reqStr fields "interesting_fact" 250
  let area_sq_mile ← reqFloat fields "area_sq_mile" fun q => 0 < q
  let area_sq_km ← reqFloat fields "area_sq_km" fun q => 0 < q
  let population ← reqInt fields "population" fun n => 0 < n
  let sci_score ← optFloat fields "sci_score" fun q => 0 ≤ q && q ≤ 100
  let sci_rank ← optInt fields "sci_rank" fun n => 1 ≤ n
  let numbeo_si ← optFloat fields "numbeo_si" fun q => 0 ≤ q && q ≤ 100
  let numbeo_ci ← optFloat fields "numbeo_ci" fun q => 0 ≤ q && q ≤ 100
  let airport_code ← optAirportCode fields
  Except.ok
    { name := name, is_capital := is_capital, description := description,
      interesting_fact := interesting_fact, area_sq_mile := area_sq_mile,
      area_sq_km := area_sq_km, population := population,
      sci_score := sci_score, sci_rank := sci_rank, numbeo_si := numbeo_si,
      numbeo_ci := numbeo_ci, airport_code := airport_code }

/-- Validation of each entry of the `cities` list: Pydantic accepts only
dicts for a nested strict model. -/
def validateCities : List Json → Except String (List CityInfo)
  | [] => Except.ok []
  | j :: rest =>
      match j with
      | Json.obj f => do
          let c ← validateCityInfo f
          let cs ← validateCities rest
          Except.ok (c :: cs)
      | _ => Except.error "cities: item is not an object"

/-- Pydantic validation of `CitiesResponse(**fields)`
(`models/country.py`): a required `cities` list of at most 5 `CityInfo`. -/
def validateCitiesResponse (fields : List (String × Json)) :
    Except String (List CityInfo) := do
  let v ← requiredField fields "cities"
  match v with
  | Json.arr items => do
      let cities ← validateCities items
      if cities.length ≤ 5 then Except.ok cities
      else Except.error "cities: list should have at most 5 items"
  | _ => Except.error "cities: input should be a valid list"

/-- Is this a raw library exception of the kind the providers promise to
translate (`json.JSONDecodeError` / `pydantic.ValidationError`)? -/
def isRawLibError : PyExc → Bool
  | PyExc.jsonDecodeError _ => true
  | PyExc.validationError _ => true
  | _ => false

/-- Does this outcome let a raw `JSONDecodeError`/`ValidationError`
escape to the caller? -/
def raisesRawLibError {α : Type} : Except PyExc α → Bool
  | Except.error e => isRawLibError e
  | Except.ok _ => false

/-- `OpenAIProvider.get_country_info`, from the point where the vendor
response content string is in hand (`json.loads` is the parameter
`loads`, returning the decoded value or the `JSONDecodeError` message):
default empty content to `"\x7b\x7d"`, decode, reject falsy data, then
validate; `JSONDecodeError` and `ValidationError` are re-raised as
`ValueError`, while the emptiness check itself raises `ValueError`
directly. -/
def openai_get_country_info (loads : String → Except String Json)
    (content : String) : Except PyExc CountryInfo :=
  match loads (if content = "" then "\x7b\x7d" else content) with
  | Except.error e =>
      Except.error (PyExc.valueError ("Failed to parse country info: " ++ e))
  | Except.ok data =>
      if data.falsy then
        Except.error (PyExc.valueError "Empty JSON response from OpenAI")
      else
        match data with
        | Json.obj fields =>
            match validateCountryInfo fields with
            | Except.error msg =>
                Except.error
                  (PyExc.valueError ("Failed to parse country info: " ++ msg))
            | Except.ok info => Except.ok info
        | _ => Except.error (PyExc.typeError "argument after ** must be a mapping")

/-- `MistralProvider.get_country_info`: identical parse/translate shape
to the OpenAI one (its content defaulting differs upstream of this
function; the emptiness message names Mistral). -/
def mistral_get_country_info (loads : String → Except String Json)
    (content : String) : Except PyExc CountryInfo :=
  match loads (if content = "" then "\x7b\x7d" else content) with
  | Except.error e =>
      Except.error (PyExc.valueError ("Failed to parse country info: " ++ e))
  | Except.ok data =>
      if data.falsy then
        Except.error (PyExc.valueError "Empty JSON response from Mistral")
      else
        match data with
        | Json.obj fields =>
            match validateCountryInfo fields with
            | Except.error msg =>
                Except.error
                  (PyExc.valueError ("Failed to parse country info: " ++ msg))
            | Except.ok info => Except.ok info
        | _ => Except.error (PyExc.typeError "argument after ** must be a mapping")

/-- Index of the first occurrence of a character (`str.find`). -/
def firstIdx (c : Char) : List Char → Option Nat
  | [] => Option.none
  | d :: rest =>
      if d = c then Option.some 0 else (firstIdx c rest).map (· + 1)

/-- Index of the last occurrence of a character (`str.rfind`). -/
def lastIdx (c : Char) (l : List Char) : Option Nat :=
  (firstIdx c l.reverse).map fun i => l.length - 1 - i

/-- `_try_extract_json` from `providers/cohere_provider.py` (also in
`ai21_provider.py`): slice from the first `\x7b` to the last `\x7d`
when both exist in that order, else return the content unchanged. -/
def try_extract_json (content : String) : String :=
  match firstIdx '\x7b' content.data, lastIdx '\x7d' content.data with
  | Option.some s, Option.some e =>
      if s < e then String.mk ((content.data.drop s).take (e + 1 - s))
      else content
  | _, _ => content

/-- `CohereProvider.get_country_info` from the point where the response
text is in hand: extract the JSON span, apply the regex sanitizer (the
parameter `sanitize`, a total string rewrite), decode and validate, with
`JSONDecodeError`/`ValidationError` re-raised as `ValueError`. -/
def cohere_get_country_info (sanitize : String → String)
    (loads : String → Except String Json) (content : String) :
    Except PyExc CountryInfo :=
  match loads (sanitize (try_extract_json content)) with
  | Except.error e =>
      Except.error (PyExc.valueError ("Failed to parse country info: " ++ e))
  | Except.ok data =>
      match data with
      | Json.obj fields =>
          match validateCountryInfo fields with
          | Except.error msg =>
              Except.error
                (PyExc.valueError ("Failed to parse country info: " ++ msg))
          | Except.ok info => Except.ok info
      | _ => Except.error (PyExc.typeError "argument after ** must be a mapping")

/-- Substring test on character lists (Python `key in str`). -/
def substrContains (needle hay : List Char) : Bool :=
  hay.tails.any fun t => needle.isPrefixOf t

/-- Python `key in data` on a decoded JSON value: key membership for a
dict, element equality for a list (a string key only ever equals string
elements), substring test for a string, `TypeError` otherwise. -/
def pyContains (key : String) : Json → Except PyExc Bool
  | Json.obj fields => Except.ok (fields.any fun kv => kv.1 = key)
  | Json.arr items =>
      Except.ok (items.any fun j =>
        match j with
        | Json.str s => s = key
        | _ => false)
  | Json.str s => Except.ok (substrContains key.data s.data)
  | _ => Except.error (PyExc.typeError "argument is not iterable")

/-- Python `data[key]` with a string key: dict lookup (`KeyError` if
absent), `TypeError` on anything else. -/
def jsonIndexStr (key : String) : Json → Except PyExc Json
  | Json.obj fields =>
      match jsonGet key fields with
      | Option.some v => Except.ok v
      | Option.none => Except.error (PyExc.otherError "KeyError")
  | Json.arr _ =>
      Except.error (PyExc.typeError "list indices must be integers, not str")
  | Json.str _ =>
      Except.error (PyExc.typeError "string indices must be integers")
  | _ => Except.error (PyExc.typeError "object is not subscriptable")

/-- Python iteration `for c in v` over a decoded JSON value: list
elements, dict keys, the characters of a string; `TypeError` otherwise. -/
def pyIterate : Json → Except PyExc (List Json)
  | Json.arr items => Except.ok items
  | Json.obj fields => Except.ok (fields.map fun kv => Json.str kv.1)
  | Json.str s => Except.ok (s.data.map fun ch => Json.str (String.mk [ch]))
  | _ => Except.error (PyExc.typeError "object is not iterable")

/-- `_sanitize_city_data` applied to one decoded `cities` element before
validation: on a dict it nulls an invalid `airport_code` as in
`sanitize_city_data`; `"airport_code" in c` works on lists and strings
(and then indexing raises `TypeError` if the test succeeds); any other
value makes the membership test itself raise `TypeError`. -/
def sanitizeCityJson : Json → Except PyExc Json
  | Json.obj fields =>
      if fields.any fun kv => kv.1 = "airport_code" then
        match jsonGet "airport_code" fields with
        | Option.some Json.null =>
            Except.ok (Json.obj (jsonSet "airport_code" Json.null fields))
        | Option.some (Json.str s) =>
            if s.length < 3 then
              Except.ok (Json.obj (jsonSet "airport_code" Json.null fields))
            else Except.ok (Json.obj fields)
        | _ => Except.ok (Json.obj fields)
      else Except.ok (Json.obj fields)
  | Json.arr items =>
      if items.any fun j =>
          match j with
          | Json.str s => s = "airport_code"
          | _ => false then
        Except.error (PyExc.typeError "list indices must be integers, not str")
      else Except.ok (Json.arr items)
  | Json.str s =>
      if substrContains ("airport_code").data s.data then
        Except.error (PyExc.typeError "string indices must be integers")
      else Except.ok (Json.str s)
  | _ => Except.error (PyExc.typeError "argument of type int is not iterable")

/-- The list comprehension `[_sanitize_city_data(c) for c in ...]`. -/
def sanitizeCities : List Json → Except PyExc (List Json)
  | [] => Except.ok []
  | c :: rest => do
      let c' ← sanitizeCityJson c
      let rest' ← sanitizeCities rest
      Except.ok (c' :: rest')

/-- The `CitiesResponse(**data)` step of `get_cities_info` together with
its exception translation: `**` raises `TypeError` on a non-dict, a
validation failure is re-raised as `ValueError`. -/
def parseCitiesResponse (d : Json) : Except PyExc (List CityInfo) :=
  match d with
  | Json.obj fields =>
      match validateCitiesResponse fields with
      | Except.error msg =>
          Except.error
            (PyExc.valueError ("Failed to parse cities info: " ++ msg))
      | Except.ok cities => Except.ok cities
  | _ => Except.error (PyExc.typeError "argument after ** must be a mapping")

/-- `OpenAIProvider.get_cities_info` (the Mistral copy is identical) from
the point where the vendor content string is in hand: decode, sanitize
each element of `cities` when that key is present (the membership test,
indexing, iteration and per-element sanitize can raise `TypeError`,
which no `except` clause catches), validate as `CitiesResponse` via
`parseCitiesResponse` — the `CitiesResponse(**data)` call — and
translate `JSONDecodeError`/`ValidationError` into `ValueError`. -/
def openai_get_cities_info (loads : String → Except String Json)
    (content : String) : Except PyExc (List CityInfo) :=
  match loads (if content = "" then "\x7b\x7d" else content) with
  | Except.error e =>
      Except.error (PyExc.valueError ("Failed to parse cities info: " ++ e))
  | Except.ok data =>
      match pyContains "cities" data with
      | Except.error e => Except.error e
      | Except.ok false => parseCitiesResponse data
      | Except.ok true =>
          match jsonIndexStr "cities" data with
          | Except.error e => Except.error e
          | Except.ok v =>
              match pyIterate v with
              | Except.error e => Except.error e
              | Except.ok items =>
                  match sanitizeCities items with
                  | Except.error e => Except.error e
                  | Except.ok items' =>
                      match data with
                      | Json.obj fields =>
                          parseCitiesResponse
                            (Json.obj (jsonSet "cities" (Json.arr items') fields))
                      | other => parseCitiesResponse other

/-- A full row of the `countries` table as `upsert_country` writes it:
generated key, unique name, provenance FKs, and the 21 data columns
(bundled as the `CountryInfo` they are copied from, one column per
field). -/
structure CountryTableRow where
  country_id : Int
  name : String
  ai_model_id : Int
  continent_id : Option Int
  info : CountryInfo
  deriving Repr, DecidableEq

/-- The `INSERT ... ON CONFLICT (name) DO UPDATE ... RETURNING
country_id` statement of `upsert_country` (`db/operations.py`), as its
PostgreSQL semantics on a `countries` table: if no row bears the given
name, append a fresh row (id `nextId`) with all supplied values; if one
does, overwrite its `ai_model_id`, `continent_id` and every data column
with the new values, keeping its id; return the affected row's id. -/
def upsertCountryStmt (countryName : String) (countryInfo : CountryInfo)
    (aiModelId : Int) (continentId : Option Int) (nextId : Int)
    (table : List CountryTableRow) : List CountryTableRow × Int :=
  match table.find? fun row => decide (row.name = countryName) with
  | Option.none =>
      (table ++
        [{ country_id := nextId, name := countryName,
           ai_model_id := aiModelId, continent_id := continentId,
           info := countryInfo }],
       nextId)
  | Option.some row =>
      (table.map fun r =>
        if r.name = countryName then
          { r with ai_model_id := aiModelId, continent_id := continentId,
                   info := countryInfo }
        else r,
       row.country_id)

/-- The documented field constraints of a validated city record, as the
claim lists them. -/
def CityWithinConstraints (c : CityInfo) : Prop :=
  c.name.length ≤ 100
  ∧ c.description.length ≤ 250
  ∧ c.interesting_fact.length ≤ 250
  ∧ 0 < c.area_sq_mile
  ∧ 0 < c.area_sq_km
  ∧ 0 < c.population
  ∧ (∀ q, c.sci_score = Option.some q → 0 ≤ q ∧ q ≤ 100)
  ∧ (∀ q, c.numbeo_si = Option.some q → 0 ≤ q ∧ q ≤ 100)
  ∧ (∀ q, c.numbeo_ci = Option.some q → 0 ≤ q ∧ q ≤ 100)
  ∧ (∀ s, c.airport_code = Option.some s → s.length = 3)

/-- A concrete valid `CountryInfo` value, for witnesses. -/
def sampleCountryInfo : CountryInfo :=
  { description := "Western European republic",
    interesting_fact := "Borders eight countries",
    area_sq_mile := 248573, area_sq_km := 643801, population := 68000000,
    ppp := 3424, life_expectancy := 82,
    travel_risk_level := "Level 1: Exercise Normal Precautions",
    global_peace_index_score := 17/10, global_peace_index_rank := 20,
    happiness_index_score := 66/10, happiness_index_rank := 21,
    gdp := 3000000000000, gdp_growth_rate := 11/10, inflation_rate := 2,
    unemployment_rate := 73/10, govt_debt := 110, credit_rating := "AA",
    poverty_rate := 14, gini_coefficient := 32, military_spending := 21/10 }

/-- The decoded fields of one fully valid city, for witnesses. -/
def sampleCityFields : List (String × Json) :=
  [("name", Json.str "Paris"),
   ("is_capital", Json.bool true),
   ("description", Json.str "Capital of France"),
   ("interesting_fact", Json.str "Hosts the Louvre"),
   ("area_sq_mile", Json.float 40),
   ("area_sq_km", Json.float 105),
   ("population", Json.int 2100000),
   ("sci_score", Json.float 80),
   ("sci_rank", Json.int 23),
   ("numbeo_si", Json.null),
   ("numbeo_ci", Json.null),
   ("airport_code", Json.str "CDG")]

/-- A concrete decoded vendor response with one fully valid city, for
witnesses. -/
def sampleCitiesJson : Json :=
  Json.obj [("cities", Json.arr [Json.obj sampleCityFields])]

/-- The validated record that `sampleCitiesJson` decodes to. -/
def sampleCityInfo : CityInfo :=
  { name := "Paris", is_capital := true, description := "Capital of France",
    interesting_fact := "Hosts the Louvre", area_sq_mile := 40,
    area_sq_km := 105, population := 2100000, sci_score := Option.some 80,
    sci_rank := Option.some 23, numbeo_si := Option.none,
    numbeo_ci := Option.none, airport_code := Option.some "CDG" }

/-- The `DO UPDATE SET` column assignments of `upsert_country`: the data
columns, `ai_model_id` and `continent_id` are overwritten; id and name
are untouched. -/
def doUpdateSet (r : CountryTableRow) (aiModelId : Int)
    (continentId : Option Int) (info : CountryInfo) : CountryTableRow :=
  { r with ai_model_id := aiModelId, continent_id := continentId, info := info }

/-- A concrete stored country row, for witnesses. -/
def franceRow : CountryTableRow :=
  { country_id := 10, name := "France", ai_model_id := 3,
    continent_id := Option.some 1, info := sampleCountryInfo }

/-- `ContinentInfo` (`models/continent.py`): the validated continent
record. -/
structure ContinentInfo where
  description : String
  area_sq_mile : ℚ
  area_sq_km : ℚ
  population : Int
  num_country : Int
  deriving Repr, DecidableEq

/-- Pydantic validation of `ContinentInfo(**fields)` with the declared
strict types and `Field` constraints of `models/continent.py`. -/
def validateContinentInfo (fields : List (String × Json)) :
    Except String ContinentInfo := do
  let description ← reqStr fields "description" 250
  let area_sq_mile ← reqFloat fields "area_sq_mile" fun q => 0 < q
  let area_sq_km ← reqFloat fields "area_sq_km" fun q => 0 < q
  let population ← reqInt fields "population" fun n => 0 < n
  let num_country ← reqInt fields "num_country" fun n => 0 ≤ n
  Except.ok
    { description := description, area_sq_mile := area_sq_mile,
      area_sq_km := area_sq_km, population := population,
      num_country := num_country }

/-- `OpenAIProvider.get_continent_info` from the point where the vendor
content string is in hand: default empty content, decode and validate
`ContinentInfo(**data)`, with `JSONDecodeError`/`ValidationError`
re-raised as `ValueError` (there is no emptiness check here). -/
def openai_get_continent_info (loads : String → Except String Json)
    (content : String) : Except PyExc ContinentInfo :=
  match loads (if content = "" then "\x7b\x7d" else content) with
  | Except.error e =>
      Except.error (PyExc.valueError ("Failed to parse continent info: " ++ e))
  | Except.ok data =>
      match data with
      | Json.obj fields =>
          match validateContinentInfo fields with
          | Except.error msg =>
              Except.error
                (PyExc.valueError ("Failed to parse continent info: " ++ msg))
          | Except.ok info => Except.ok info
      | _ => Except.error (PyExc.typeError "argument after ** must be a mapping")

/-- The comprehension `[CityInfo(**city) for city in cities_data]` used
by the Anthropic/Google/AI21/Cohere/DeepSeek cities paths: each element
must be a dict (otherwise `**` raises `TypeError`) and is validated as a
`CityInfo` (a failure is a `ValidationError`); there is no length cap. -/
def validateCityList : List Json → Except PyExc (List CityInfo)
  | [] => Except.ok []
  | j :: rest =>
      match j with
      | Json.obj f =>
          match validateCityInfo f with
          | Except.error msg => Except.error (PyExc.validationError msg)
          | Except.ok c =>
              match validateCityList rest with
              | Except.error e => Except.error e
              | Except.ok cs => Except.ok (c :: cs)
      | _ => Except.error (PyExc.typeError "argument after ** must be a mapping")

/-- `AnthropicProvider.get_cities_info` from the tool-use extraction
onwards: `input` is the `record_cities_info` tool call's input dict when
Claude produced one (`None` otherwise, which raises `ValueError`);
`cities_data = input.get("cities", [])`, then the per-city comprehension
with only `ValidationError` caught and re-raised as `ValueError` — note
there is no `CitiesResponse` wrapper and no cap on the list length. -/
def anthropic_get_cities_info (input : Option (List (String × Json))) :
    Except PyExc (List CityInfo) :=
  match input with
  | Option.none =>
      Except.error (PyExc.valueError "Claude did not use the record_cities_info tool")
  | Option.some fields =>
      let citiesData :=
        match jsonGet "cities" fields with
        | Option.some v => v
        | Option.none => Json.arr []
      match pyIterate citiesData with
      | Except.error e => Except.error e
      | Except.ok items =>
          match validateCityList items with
          | Except.error (PyExc.validationError msg) =>
              Except.error
                (PyExc.valueError ("Failed to validate cities info: " ++ msg))
          | Except.error e => Except.error e
          | Except.ok cities => Except.ok cities

/-- A valid city dict renamed to `n`, for the uncapped-list
counterexample. -/
def cityJsonNamed (n : String) : Json :=
  Json.obj (jsonSet "name" (Json.str n) sampleCityFields)

/-- The `CityInfo` that `cityJsonNamed n` validates to. -/
def sampleCityNamed (n : String) : CityInfo :=
  { sampleCityInfo with name := n }

/-- Six city names: one more than the claimed cap of five. -/
def sixCityNames : List String :=
  ["Alpha", "Beta", "Gamma", "Delta", "Epsilon", "Zeta"]

/-! Helper lemmas. -/

theorem isValueError_valueError (m : String) :
    (PyExc.valueError m).isValueError = true := rfl

theorem dictGet_dictSet_self (k : String) (v : PyVal) (l : List (String × PyVal)) :
    dictGet k (dictSet k v l) = (dictGet k l).map (fun _ => v) := by
  induction l with
  | nil => rfl
  | cons kv rest ih =>
      obtain ⟨k', v'⟩ := kv
      by_cases h : k' = k <;> simp [dictGet, dictSet, h, ih]

theorem dictGet_dictSet_ne (k k' : String) (v : PyVal) (l : List (String × PyVal))
    (h : k' ≠ k) : dictGet k' (dictSet k v l) = dictGet k' l := by
  induction l with
  | nil => rfl
  | cons kv rest ih =>
      obtain ⟨k0, v0⟩ := kv
      by_cases hk : k0 = k
      · subst hk
        simp [dictGet, dictSet, Ne.symm h]
      · by_cases hk' : k0 = k' <;> simp [dictGet, dictSet, hk, hk', ih, h]

theorem airportCodeInvalid_iff (v : PyVal) :
    airportCodeInvalid v = true ↔
      (v = PyVal.none ∨ ∃ s, v = PyVal.str s ∧ s.length < 3) := by
  cases v <;> simp [airportCodeInvalid]

/-- C10: `_sanitize_city_data` maps the `airport_code` key (when present)
to `None` exactly when its value was `None` or a string shorter than 3
characters, leaves it unchanged otherwise, leaves every other key
unchanged, and afterwards `airport_code` is never a non-`None` string of
length less than 3. -/
theorem C10_theorem (city : List (String × PyVal)) :
    (∀ k, k ≠ "airport_code" →
        dictGet k (sanitize_city_data city) = dictGet k city)
  ∧ (dictGet "airport_code" city = Option.none → sanitize_city_data city = city)
  ∧ (∀ v, dictGet "airport_code" city = Option.some v →
        (v = PyVal.none ∨ ∃ s, v = PyVal.str s ∧ s.length < 3) →
        dictGet "airport_code" (sanitize_city_data city) = Option.some PyVal.none)
  ∧ (∀ v, dictGet "airport_code" city = Option.some v →
        ¬(v = PyVal.none ∨ ∃ s, v = PyVal.str s ∧ s.length < 3) →
        dictGet "airport_code" (sanitize_city_data city) = Option.some v)
  ∧ (∀ s, dictGet "airport_code" (sanitize_city_data city) = Option.some (PyVal.str s) →
        3 ≤ s.length) := by
  have hother : ∀ k, k ≠ "airport_code" →
      dictGet k (sanitize_city_data city) = dictGet k city := by
    intro k hk
    unfold sanitize_city_data
    cases h : dictGet "airport_code" city with
    | none => rfl
    | some v =>
        by_cases hv : airportCodeInvalid v
        · simp [hv, dictGet_dictSet_ne _ _ _ _ hk]
        · simp [hv]
  have hnone : dictGet "airport_code" city = Option.none →
      sanitize_city_data city = city := by
    intro h
    unfold sanitize_city_data
    simp [h]
  have hinv : ∀ v, dictGet "airport_code" city = Option.some v →
      (v = PyVal.none ∨ ∃ s, v = PyVal.str s ∧ s.length < 3) →
      dictGet "airport_code" (sanitize_city_data city) = Option.some PyVal.none := by
    intro v hv hbad
    unfold sanitize_city_data
    rw [hv]
    rw [← airportCodeInvalid_iff] at hbad
    simp [hbad, dictGet_dictSet_self, hv]
  have hkeep : ∀ v, dictGet "airport_code" city = Option.some v →
      ¬(v = PyVal.none ∨ ∃ s, v = PyVal.str s ∧ s.length < 3) →
      dictGet "airport_code" (sanitize_city_data city) = Option.some v := by
    intro v hv hgood
    unfold sanitize_city_data
    rw [hv]
    rw [← airportCodeInvalid_iff] at hgood
    simp only [Bool.not_eq_true] at hgood
    simp [hgood, hv]
  refine ⟨hother, hnone, hinv, hkeep, ?_⟩
  intro s hs
  cases h : dictGet "airport_code" city with
  | none =>
      rw [hnone h, h] at hs
      exact absurd hs (by simp)
  | some v =>
      by_cases hv : airportCodeInvalid v
      · rw [hinv v h ((airportCodeInvalid_iff v).mp hv)] at hs
        exact absurd hs (by simp)
      · rw [hkeep v h (fun hbad => hv ((airportCodeInvalid_iff v).mpr hbad))] at hs
        injection hs with hvs
        subst hvs
        simp [airportCodeInvalid] at hv
        omega

/-- C10 witness: on the concrete dict `{"airport_code": "XY"}` (a 2-letter
code), sanitization rewrites `airport_code` to `None`. -/
theorem C10_witness :
    dictGet "airport_code" (sanitize_city_data [("airport_code", PyVal.str "XY")])
      = Option.some PyVal.none :=
  (C10_theorem _).2.2.1 _ rfl (Or.inr ⟨"XY", rfl, by decide⟩)

/-- C1 (amended): the OpenAI/Mistral/Groq-style retry helper behaves as
the claim states for every kind of exception: at most three attempts, a
fixed `RETRY_DELAY` sleep between consecutive failed attempts, the first
success returned with no further calls, and a `ValueError` carrying the
last error when all three attempts fail. The Anthropic/Google/AI21-style
helper behaves this way only for `ValueError` failures; an attempt that
raises any other exception propagates it immediately, with no further
attempt, no sleep and no `ValueError` wrapping. -/
theorem C1_theorem {α : Type} (f : Nat → Except PyExc α) :
    (∀ a, f 0 = Except.ok a →
        openai_get_country_info_with_retry f = (Except.ok a, [RetryEvent.call 0]))
  ∧ (∀ e0 a, f 0 = Except.error e0 → f 1 = Except.ok a →
        openai_get_country_info_with_retry f =
          (Except.ok a,
           [RetryEvent.call 0, RetryEvent.sleep RETRY_DELAY, RetryEvent.call 1]))
  ∧ (∀ e0 e1 a, f 0 = Except.error e0 → f 1 = Except.error e1 → f 2 = Except.ok a →
        openai_get_country_info_with_retry f =
          (Except.ok a,
           [RetryEvent.call 0, RetryEvent.sleep RETRY_DELAY, RetryEvent.call 1,
            RetryEvent.sleep RETRY_DELAY, RetryEvent.call 2]))
  ∧ (∀ e0 e1 e2, f 0 = Except.error e0 → f 1 = Except.error e1 →
        f 2 = Except.error e2 →
        openai_get_country_info_with_retry f =
          (Except.error (PyExc.valueError
             ("Failed after " ++ toString 3 ++ " retries: " ++ e2.pyStr)),
           [RetryEvent.call 0, RetryEvent.sleep RETRY_DELAY, RetryEvent.call 1,
            RetryEvent.sleep RETRY_DELAY, RetryEvent.call 2]))
  ∧ (∀ a, f 0 = Except.ok a →
        anthropic_get_country_info_with_retry f = (Except.ok a, [RetryEvent.call 0]))
  ∧ (∀ m0 a, f 0 = Except.error (PyExc.valueError m0) → f 1 = Except.ok a →
        anthropic_get_country_info_with_retry f =
          (Except.ok a,
           [RetryEvent.call 0, RetryEvent.sleep RETRY_DELAY, RetryEvent.call 1]))
  ∧ (∀ m0 m1 a, f 0 = Except.error (PyExc.valueError m0) →
        f 1 = Except.error (PyExc.valueError m1) → f 2 = Except.ok a →
        anthropic_get_country_info_with_retry f =
          (Except.ok a,
           [RetryEvent.call 0, RetryEvent.sleep RETRY_DELAY, RetryEvent.call 1,
            RetryEvent.sleep RETRY_DELAY, RetryEvent.call 2]))
  ∧ (∀ m0 m1 m2, f 0 = Except.error (PyExc.valueError m0) →
        f 1 = Except.error (PyExc.valueError m1) →
        f 2 = Except.error (PyExc.valueError m2) →
        anthropic_get_country_info_with_retry f =
          (Except.error (PyExc.valueError
             ("Failed after " ++ toString 3 ++ " attempts: " ++ m2)),
           [RetryEvent.call 0, RetryEvent.sleep RETRY_DELAY, RetryEvent.call 1,
            RetryEvent.sleep RETRY_DELAY, RetryEvent.call 2]))
  ∧ (∀ e, f 0 = Except.error e → e.isValueError = false →
        anthropic_get_country_info_with_retry f =
          (Except.error e, [RetryEvent.call 0]))
  ∧ (∀ m0 e, f 0 = Except.error (PyExc.valueError m0) → f 1 = Except.error e →
        e.isValueError = false →
        anthropic_get_country_info_with_retry f =
          (Except.error e,
           [RetryEvent.call 0, RetryEvent.sleep RETRY_DELAY, RetryEvent.call 1]))
  ∧ (∀ m0 m1 e, f 0 = Except.error (PyExc.valueError m0) →
        f 1 = Except.error (PyExc.valueError m1) → f 2 = Except.error e →
        e.isValueError = false →
        anthropic_get_country_info_with_retry f =
          (Except.error e,
           [RetryEvent.call 0, RetryEvent.sleep RETRY_DELAY, RetryEvent.call 1,
            RetryEvent.sleep RETRY_DELAY, RetryEvent.call 2])) := by
  refine ⟨?_, ?_, ?_, ?_, ?_, ?_, ?_, ?_, ?_, ?_, ?_⟩
  · intro a h0
    simp [openai_get_country_info_with_retry, MAX_RETRIES, retryCatchAllAux, h0]
  · intro e0 a h0 h1
    simp [openai_get_country_info_with_retry, MAX_RETRIES, retryCatchAllAux, h0, h1]
  · intro e0 e1 a h0 h1 h2
    simp [openai_get_country_info_with_retry, MAX_RETRIES, retryCatchAllAux, h0, h1, h2]
  · intro e0 e1 e2 h0 h1 h2
    simp [openai_get_country_info_with_retry, MAX_RETRIES, retryCatchAllAux, h0, h1, h2,
      pyStrOpt]
  · intro a h0
    simp [anthropic_get_country_info_with_retry, MAX_RETRIES, retryCatchValueErrorAux, h0]
  · intro m0 a h0 h1
    simp [anthropic_get_country_info_with_retry, MAX_RETRIES, retryCatchValueErrorAux,
      h0, h1, isValueError_valueError]
  · intro m0 m1 a h0 h1 h2
    simp [anthropic_get_country_info_with_retry, MAX_RETRIES, retryCatchValueErrorAux,
      h0, h1, h2, isValueError_valueError]
  · intro m0 m1 m2 h0 h1 h2
    simp [anthropic_get_country_info_with_retry, MAX_RETRIES, retryCatchValueErrorAux,
      h0, h1, h2, isValueError_valueError, pyStrOpt, PyExc.pyStr]
  · intro e h0 hve
    simp [anthropic_get_country_info_with_retry, MAX_RETRIES, retryCatchValueErrorAux,
      h0, hve]
  · intro m0 e h0 h1 hve
    simp [anthropic_get_country_info_with_retry, MAX_RETRIES, retryCatchValueErrorAux,
      h0, h1, hve, isValueError_valueError]
  · intro m0 m1 e h0 h1 h2 hve
    simp [anthropic_get_country_info_with_retry, MAX_RETRIES, retryCatchValueErrorAux,
      h0, h1, h2, hve, isValueError_valueError]

/-- C1 witness: with an underlying call that always raises a generic
exception, the OpenAI-style helper makes three attempts, sleeping 1 second
after the first two, then raises a `ValueError` carrying the last error. -/
theorem C1_witness :
    openai_get_country_info_with_retry
        (fun _ => (Except.error (PyExc.otherError "boom") : Except PyExc Unit))
      = (Except.error (PyExc.valueError
           ("Failed after " ++ toString 3 ++ " retries: "
             ++ PyExc.pyStr (PyExc.otherError "boom"))),
         [RetryEvent.call 0, RetryEvent.sleep RETRY_DELAY, RetryEvent.call 1,
          RetryEvent.sleep RETRY_DELAY, RetryEvent.call 2]) :=
  (C1_theorem (fun _ => Except.error (PyExc.otherError "boom"))).2.2.2.1 _ _ _
    rfl rfl rfl

/-- C1 counterexample: the Anthropic-style retry helper, upon an
underlying call that raises a non-`ValueError` exception, propagates that
exception after a single attempt instead of retrying and raising a
`ValueError` as the claim requires. -/
theorem C1_counterexample :
    anthropic_get_country_info_with_retry
        (fun _ => (Except.error (PyExc.otherError "api connection error") :
          Except PyExc Unit))
      = (Except.error (PyExc.otherError "api connection error"), [RetryEvent.call 0])
    ∧ (PyExc.otherError "api connection error").isValueError = false := by
  constructor
  · rfl
  · rfl

/-- C3: for each of the four upsert helpers, a database error during the
statement rolls the transaction back (the committed state is unchanged),
closes the connection and re-raises the error; a successful statement that
returns a row id commits the new state, closes the connection and returns
that id. -/
theorem C3_theorem {σ : Type} (stmt : σ → Except String (σ × Option Int))
    (initial : σ) :
    (∀ e, stmt initial = Except.error e →
        upsert_ai_model stmt initial =
          (Except.error (PyExc.pgError e),
           { committed := initial, pending := initial, closed := true })
      ∧ upsert_continent stmt initial =
          (Except.error (PyExc.pgError e),
           { committed := initial, pending := initial, closed := true })
      ∧ upsert_country stmt initial =
          (Except.error (PyExc.pgError e),
           { committed := initial, pending := initial, closed := true })
      ∧ upsert_city stmt initial =
          (Except.error (PyExc.pgError e),
           { committed := initial, pending := initial, closed := true }))
  ∧ (∀ s rid, stmt initial = Except.ok (s, Option.some rid) →
        upsert_ai_model stmt initial =
          (Except.ok rid, { committed := s, pending := s, closed := true })
      ∧ upsert_continent stmt initial =
          (Except.ok rid, { committed := s, pending := s, closed := true })
      ∧ upsert_country stmt initial =
          (Except.ok rid, { committed := s, pending := s, closed := true })
      ∧ upsert_city stmt initial =
          (Except.ok rid, { committed := s, pending := s, closed := true })) := by
  constructor
  · intro e he
    refine ⟨?_, ?_, ?_, ?_⟩ <;>
      simp [upsert_ai_model, upsert_continent, upsert_country, upsert_city,
        upsertSkeleton, he]
  · intro s rid hok
    refine ⟨?_, ?_, ?_, ?_⟩ <;>
      simp [upsert_ai_model, upsert_continent, upsert_country, upsert_city,
        upsertSkeleton, hok]

/-- C3 witness: a concrete failing statement (`σ` instantiated with a
list of rows) is rolled back by `upsert_country` with the committed rows
unchanged, and a concrete succeeding statement commits and returns its
id. -/
theorem C3_witness :
    upsert_country (σ := List Nat) (fun _ => Except.error "duplicate key") [7] =
      (Except.error (PyExc.pgError "duplicate key"),
       { committed := [7], pending := [7], closed := true })
    ∧ upsert_country (σ := List Nat) (fun s => Except.ok (s ++ [8], Option.some 2)) [7] =
      (Except.ok 2, { committed := [7, 8], pending := [7, 8], closed := true }) :=
  ⟨((C3_theorem (fun _ => Except.error "duplicate key") [7]).1 "duplicate key" rfl).2.2.1,
   ((C3_theorem (fun s => Except.ok (s ++ [8], Option.some 2)) [7]).2 [7, 8] 2 rfl).2.2.1⟩

/-- Every country is attempted in order, each paired with its outcome. -/
theorem batchResults_eq {ρ : Type} (process : String → Except PyExc ρ)
    (countries : List String) :
    batchResults process countries = countries.map fun c => (c, process c) := by
  induction countries with
  | nil => rfl
  | cons c rest ih => simp [batchResults, ih]

theorem failureCount_eq_zero_iff {ρ : Type} (process : String → Except PyExc ρ)
    (countries : List String) :
    failureCount (batchResults process countries) = 0 ↔
      ∀ c ∈ countries, ∃ r, process c = Except.ok r := by
  rw [batchResults_eq]
  induction countries with
  | nil => simp [failureCount]
  | cons c rest ih =>
      cases h : process c with
      | ok r =>
          simp only [List.map_cons, failureCount, List.filter_cons] at ih ⊢
          simp [h, ← ih, failureCount]
      | error e =>
          simp only [List.map_cons, failureCount, List.filter_cons] at ih ⊢
          simp [h]

/-- C4 (amended): the batch CLI attempts `process_country` on every
country in order even when earlier countries fail, records each outcome,
and — provided the assigned-country list is non-empty — returns exit code
0 exactly when every country succeeded and 1 exactly when at least one
failed. (On an empty list the summary's average-time computation divides
by `len(countries)` and `main` raises `ZeroDivisionError` instead of
returning 0.) -/
theorem C4_theorem {ρ : Type} (process : String → Except PyExc ρ)
    (countries : List String) :
    batchResults process countries = (countries.map fun c => (c, process c))
  ∧ (countries ≠ [] →
      (cli_all_countries_mistral_main process countries false = Except.ok 0 ↔
        ∀ c ∈ countries, ∃ r, process c = Except.ok r)
      ∧ (cli_all_countries_mistral_main process countries false = Except.ok 1 ↔
        ∃ c ∈ countries, ∀ r, process c ≠ Except.ok r)) := by
  refine ⟨batchResults_eq process countries, fun hne => ⟨?_, ?_⟩⟩
  · unfold cli_all_countries_mistral_main
    rw [← failureCount_eq_zero_iff process countries]
    have hlen : countries.length ≠ 0 := by simpa using hne
    by_cases hf : failureCount (batchResults process countries) = 0 <;>
      simp [hlen, hf]
  · have hlen : countries.length ≠ 0 := by simpa using hne
    have hiff := failureCount_eq_zero_iff process countries
    by_cases hf : failureCount (batchResults process countries) = 0
    · have hall := hiff.mp hf
      have hmain : cli_all_countries_mistral_main process countries false =
          Except.ok 0 := by
        simp [cli_all_countries_mistral_main, hlen, hf]
      rw [hmain]
      constructor
      · intro h
        exact absurd h (by simp)
      · rintro ⟨c, hc, hbad⟩
        obtain ⟨r, hr⟩ := hall c hc
        exact absurd hr (hbad r)
    · have hmain : cli_all_countries_mistral_main process countries false =
          Except.ok 1 := by
        simp [cli_all_countries_mistral_main, hlen, hf]
      rw [hmain]
      constructor
      · intro _
        by_contra hno
        push_neg at hno
        refine hf (hiff.mpr ?_)
        intro c hc
        obtain ⟨r, hr⟩ := hno c hc
        exact ⟨r, hr⟩
      · intro _
        rfl

/-- C4 witness: with two countries of which the first fails and the second
succeeds, both are attempted in order and the exit code is 1. -/
theorem C4_witness :
    (cli_all_countries_mistral_main
        (fun c => if c = "France" then Except.error (PyExc.valueError "parse")
                  else (Except.ok 0 : Except PyExc Nat))
        ["France", "Japan"] false = Except.ok 1) :=
  ((C4_theorem _ ["France", "Japan"]).2 (by simp)).2.mpr
    ⟨"France", by simp, by intro r; simp⟩

/-- C4 counterexample: on the empty country list (with every country
vacuously succeeding) `main` raises `ZeroDivisionError` from the summary's
average-time computation instead of returning exit code 0 as the claim
requires. -/
theorem C4_counterexample :
    cli_all_countries_mistral_main (fun _ => (Except.ok 0 : Except PyExc Nat))
        [] false = Except.error PyExc.zeroDivisionError
    ∧ cli_all_countries_mistral_main (fun _ => (Except.ok 0 : Except PyExc Nat))
        [] false ≠ Except.ok 0 := by
  constructor
  · rfl
  · intro h
    cases h

/-- A filter whose predicate holds for exactly one list member returns
just that member. -/
theorem filter_unique {α : Type} (l : List α) (f : α → Bool) (r : α)
    (hnodup : l.Nodup) (hr : r ∈ l) (hfr : f r = true)
    (hother : ∀ x ∈ l, f x = true → x = r) : l.filter f = [r] := by
  induction l with
  | nil => cases hr
  | cons a rest ih =>
      rw [List.nodup_cons] at hnodup
      rcases List.mem_cons.mp hr with rfl | hmem
      · rw [List.filter_cons_of_pos hfr]
        have hrest : rest.filter f = [] := by
          rw [List.filter_eq_nil_iff]
          intro x hx hfx
          exact hnodup.1 ((hother x (List.mem_cons_of_mem _ hx) hfx) ▸ hx)
        rw [hrest]
      · have ha : f a = false := by
          by_contra hfa
          rw [Bool.not_eq_false] at hfa
          have har := hother a (List.mem_cons_self a rest) hfa
          subst har
          exact hnodup.1 hmem
        rw [List.filter_cons_of_neg (by simp [ha])]
        exact ih hnodup.2 hmem
          (fun x hx hfx => hother x (List.mem_cons_of_mem _ hx) hfx)

/-- A wildcard-free `ILIKE` pattern matches exactly the case variants of
itself. -/
theorem ilikeMatch_of_noWildcards (p : List Char) :
    ∀ v : List Char, (p.all fun c => !(c = '%' || c = '_' || c = '\\')) = true →
      (ilikeMatch p v = true ↔ p.map Char.toLower = v.map Char.toLower) := by
  induction p with
  | nil =>
      intro v _
      cases v <;> simp [ilikeMatch]
  | cons c p ih =>
      intro v hall
      simp only [List.all_cons, Bool.and_eq_true] at hall
      obtain ⟨hc, hp⟩ := hall
      have hc1 : ¬(c = '%') := by intro h; subst h; simp at hc
      have hc2 : ¬(c = '_') := by intro h; subst h; simp at hc
      have hc3 : ¬(c = '\\') := by intro h; subst h; simp at hc
      cases v with
      | nil =>
          unfold ilikeMatch
          simp [hc1, hc2, hc3]
      | cons d v' =>
          unfold ilikeMatch
          simp [hc1, hc2, hc3, charFoldEq, ih v' hp, List.cons.injEq]

/-- String form of `ilikeMatch_of_noWildcards`. -/
theorem ilike_of_noWildcards (value pattern : String)
    (h : noWildcards pattern = true) :
    ilike value pattern = true ↔ foldLower pattern = foldLower value := by
  unfold noWildcards at h
  unfold ilike foldLower
  exact ilikeMatch_of_noWildcards pattern.data value.data h

/-- C9 (amended): for every stored country and every case variant of its
name that contains no `LIKE` wildcard or escape characters (`%`, `_`,
`\`), when that country is the only stored row whose name is a case
variant of it, lookup-by-name returns that stored record. (With a
wildcard in the name, or several stored rows whose names agree up to
case, the `ILIKE`-based lookup can match several rows and
`scalar_one_or_none` then raises instead of returning the record.) -/
theorem C9_theorem (db : List CountryRow) (r : CountryRow) (s : String)
    (hnodup : db.Nodup) (hr : r ∈ db)
    (hnw : noWildcards s = true)
    (hvar : caseVariant s r.name = true)
    (huniq : ∀ r' ∈ db, caseVariant r'.name r.name = true → r' = r) :
    get_country_by_name db s = Except.ok (Option.some r) := by
  have hfold : foldLower s = foldLower r.name := by
    unfold caseVariant at hvar
    exact beq_iff_eq.mp hvar
  have hfilter : db.filter (fun r' => ilike r'.name s) = [r] := by
    apply filter_unique db _ r hnodup hr
    · show ilike r.name s = true
      rw [ilike_of_noWildcards r.name s hnw]
      exact hfold
    · intro x hx hfx
      apply huniq x hx
      have hfx' : foldLower s = foldLower x.name :=
        (ilike_of_noWildcards x.name s hnw).mp hfx
      unfold caseVariant
      exact beq_iff_eq.mpr (hfx'.symm.trans hfold)
  unfold get_country_by_name
  rw [hfilter]
  rfl

/-- C9 witness: looking up the stored country "France" under the case
variant "fRAnCe" returns the stored record. -/
theorem C9_witness :
    get_country_by_name
        [{ country_id := 1, name := "France", continent_id := Option.none,
           ai_model_id := Option.none }] "fRAnCe"
      = Except.ok (Option.some
          { country_id := 1, name := "France", continent_id := Option.none,
            ai_model_id := Option.none }) :=
  C9_theorem _ _ _ (by simp) (by simp) (by decide) (by decide)
    (by intro r' hr' _; simpa using hr')

/-- C9 counterexample: with stored countries "A_B" and "AxB", looking up
"A_B" — a case variant (indeed equal) of the stored name "A_B" — does not
return that stored record: the `_` acts as an `ILIKE` wildcard, both rows
match, and `scalar_one_or_none` raises `MultipleResultsFound`. -/
theorem C9_counterexample :
    get_country_by_name
        [{ country_id := 1, name := "A_B", continent_id := Option.none,
           ai_model_id := Option.none },
         { country_id := 2, name := "AxB", continent_id := Option.none,
           ai_model_id := Option.none }] "A_B"
      = Except.error (PyExc.otherError "MultipleResultsFound")
    ∧ caseVariant "A_B" "A_B" = true := by
  constructor
  · rfl
  · decide

/-- C8: the detail endpoints respond 404 with detail `"<Entity> not
found"` when no record matches the requested id or name, and with the
record itself when exactly one record matches. -/
theorem C8_theorem (db : List CountryRow) (cities : List CityRow)
    (countryId : Int) (cityId : Int) (countryName : String) :
    ((∀ r ∈ db, r.country_id ≠ countryId) →
        get_country_by_id db countryId = ApiResult.httpError 404 "Country not found")
  ∧ (∀ r, db.Nodup → r ∈ db → r.country_id = countryId →
        (∀ r' ∈ db, r'.country_id = countryId → r' = r) →
        get_country_by_id db countryId = ApiResult.ok r)
  ∧ ((∀ r ∈ db, ilike r.name countryName = false) →
        get_country_by_name_endpoint db countryName
          = ApiResult.httpError 404 "Country not found")
  ∧ (∀ r, db.Nodup → r ∈ db → ilike r.name countryName = true →
        (∀ r' ∈ db, ilike r'.name countryName = true → r' = r) →
        get_country_by_name_endpoint db countryName = ApiResult.ok r)
  ∧ ((∀ c ∈ cities, c.city_id ≠ cityId) →
        get_city_by_id cities cityId = ApiResult.httpError 404 "City not found")
  ∧ (∀ c, cities.Nodup → c ∈ cities → c.city_id = cityId →
        (∀ c' ∈ cities, c'.city_id = cityId → c' = c) →
        get_city_by_id cities cityId = ApiResult.ok c) := by
  refine ⟨?_, ?_, ?_, ?_, ?_, ?_⟩
  · intro hmiss
    have hnil : db.filter (fun r => decide (r.country_id = countryId)) = [] := by
      rw [List.filter_eq_nil_iff]
      intro r hrr
      simpa using hmiss r hrr
    unfold get_country_by_id get_country
    rw [hnil]
    rfl
  · intro r hnodup hr hid huniq
    have hfilter : db.filter (fun r' => decide (r'.country_id = countryId)) = [r] := by
      apply filter_unique db _ r hnodup hr (by simpa using hid)
      intro x hx hfx
      exact huniq x hx (by simpa using hfx)
    unfold get_country_by_id get_country
    rw [hfilter]
    rfl
  · intro hmiss
    have hnil : db.filter (fun r => ilike r.name countryName) = [] := by
      rw [List.filter_eq_nil_iff]
      intro r hrr
      simp [hmiss r hrr]
    unfold get_country_by_name_endpoint get_country_by_name
    rw [hnil]
    rfl
  · intro r hnodup hr hmatchr huniq
    have hfilter : db.filter (fun r' => ilike r'.name countryName) = [r] :=
      filter_unique db _ r hnodup hr hmatchr huniq
    unfold get_country_by_name_endpoint get_country_by_name
    rw [hfilter]
    rfl
  · intro hmiss
    have hnil : cities.filter (fun c => decide (c.city_id = cityId)) = [] := by
      rw [List.filter_eq_nil_iff]
      intro c hcc
      simpa using hmiss c hcc
    unfold get_city_by_id get_city
    rw [hnil]
    rfl
  · intro c hnodup hc hid huniq
    have hfilter : cities.filter (fun c' => decide (c'.city_id = cityId)) = [c] := by
      apply filter_unique cities _ c hnodup hc (by simpa using hid)
      intro x hx hfx
      exact huniq x hx (by simpa using hfx)
    unfold get_city_by_id get_city
    rw [hfilter]
    rfl

/-- C8 witness: on a one-country database, an unknown id yields the 404
`"Country not found"` response and the stored id yields the record. -/
theorem C8_witness :
    get_country_by_id
        [{ country_id := 1, name := "France", continent_id := Option.none,
           ai_model_id := Option.none }] 5
      = ApiResult.httpError 404 "Country not found"
    ∧ get_country_by_id
        [{ country_id := 1, name := "France", continent_id := Option.none,
           ai_model_id := Option.none }] 1
      = ApiResult.ok
          { country_id := 1, name := "France", continent_id := Option.none,
            ai_model_id := Option.none } :=
  ⟨(C8_theorem _ [] 5 0 "").1 (by decide),
   (C8_theorem _ [] 1 0 "").2.1 _ (by simp) (by simp) rfl
     (by intro r' hr' _; simpa using hr')⟩

/-- C5 (amended): every embedded list endpoint returns an envelope whose
`count` field equals the length of the returned record list (which for
the unfiltered endpoints is the number of stored rows), but the list
field is named after the entity (`countries`, `cities`, `continents`,
`ai_models`, `glossary`), not `items`. -/
theorem C5_theorem (dbCountries : List CountryRow) (dbCities : List CityRow)
    (dbContinents : List ContinentRow) (dbModels : List AIModelRow)
    (dbGlossary : List GlossaryRow) (continentId countryId : Int)
    (continentName : String) :
    ((list_countries dbCountries).count
        = (list_countries dbCountries).countries.length
      ∧ (list_countries dbCountries).count = dbCountries.length)
  ∧ (get_countries_by_continent_id_endpoint dbCountries continentId).count
      = (get_countries_by_continent_id_endpoint dbCountries continentId).countries.length
  ∧ (get_countries_by_continent_name_endpoint dbCountries dbContinents
        continentName).count
      = (get_countries_by_continent_name_endpoint dbCountries dbContinents
        continentName).countries.length
  ∧ ((list_cities dbCities).count = (list_cities dbCities).cities.length
      ∧ (list_cities dbCities).count = dbCities.length)
  ∧ (get_cities_by_country_id_endpoint dbCities countryId).count
      = (get_cities_by_country_id_endpoint dbCities countryId).cities.length
  ∧ ((list_continents dbContinents).count
        = (list_continents dbContinents).continents.length
      ∧ (list_continents dbContinents).count = dbContinents.length)
  ∧ ((list_ai_models dbModels).count = (list_ai_models dbModels).ai_models.length
      ∧ (list_ai_models dbModels).count = dbModels.length)
  ∧ ((list_glossary dbGlossary).count = (list_glossary dbGlossary).glossary.length
      ∧ (list_glossary dbGlossary).count = dbGlossary.length)
  ∧ (countryListResponseKeys = ["countries", "count"]
      ∧ cityListResponseKeys = ["cities", "count"]
      ∧ continentListResponseKeys = ["continents", "count"]
      ∧ aiModelListResponseKeys = ["ai_models", "count"]
      ∧ glossaryListResponseKeys = ["glossary", "count"]
      ∧ countryListResponseKeys.contains "items" = false
      ∧ cityListResponseKeys.contains "items" = false
      ∧ continentListResponseKeys.contains "items" = false
      ∧ aiModelListResponseKeys.contains "items" = false
      ∧ glossaryListResponseKeys.contains "items" = false) := by
  refine ⟨⟨rfl, ?_⟩, rfl, rfl, ⟨rfl, ?_⟩, rfl, ⟨rfl, ?_⟩, ⟨rfl, ?_⟩, ⟨rfl, ?_⟩,
    rfl, rfl, rfl, rfl, rfl, rfl, rfl, rfl, rfl, rfl⟩ <;>
    simp [list_countries, get_countries, list_cities, get_cities, list_continents,
      get_continents, list_ai_models, get_ai_models, list_glossary,
      get_all_glossary_entries, List.length_mergeSort]

/-- C5 counterexample: on a concrete one-row database, the countries list
endpoint's envelope fields are `countries` and `count` — there is no
`items` field, contradicting the claimed `{ items: [...], count: N }`
shape (its `count` is nevertheless correct). -/
theorem C5_counterexample :
    countryListResponseKeys = ["countries", "count"]
    ∧ countryListResponseKeys.contains "items" = false
    ∧ (list_countries
        [{ country_id := 1, name := "France", continent_id := Option.none,
           ai_model_id := Option.none }]).count = 1 := by
  refine ⟨rfl, rfl, ?_⟩
  simp [list_countries, get_countries, List.length_mergeSort]

/-- Success of an `Except` bind splits into successes of both stages. -/
theorem except_bind_ok {ε α β : Type} (x : Except ε α) (f : α → Except ε β) (b : β) :
    (x >>= f) = Except.ok b ↔ ∃ a, x = Except.ok a ∧ f a = Except.ok b := by
  cases x <;> simp [Bind.bind, Except.bind]

theorem reqStr_ok (fields : List (String × Json)) (k : String) (maxLen : Nat)
    (s : String) (h : reqStr fields k maxLen = Except.ok s) : s.length ≤ maxLen := by
  unfold reqStr at h
  rw [except_bind_ok] at h
  obtain ⟨v, hv, h⟩ := h
  rw [except_bind_ok] at h
  obtain ⟨s', hs, h⟩ := h
  by_cases hc : s'.length ≤ maxLen
  · rw [if_pos hc] at h
    injection h with h2
    subst h2
    exact hc
  · rw [if_neg hc] at h
    exact Except.noConfusion h

theorem reqFloat_ok (fields : List (String × Json)) (k : String) (check : ℚ → Bool)
    (q : ℚ) (h : reqFloat fields k check = Except.ok q) : check q = true := by
  unfold reqFloat at h
  rw [except_bind_ok] at h
  obtain ⟨v, hv, h⟩ := h
  rw [except_bind_ok] at h
  obtain ⟨q', hq, h⟩ := h
  by_cases hc : check q' = true
  · rw [if_pos hc] at h
    injection h with h2
    subst h2
    exact hc
  · rw [if_neg hc] at h
    exact Except.noConfusion h

theorem reqInt_ok (fields : List (String × Json)) (k : String) (check : Int → Bool)
    (n : Int) (h : reqInt fields k check = Except.ok n) : check n = true := by
  unfold reqInt at h
  rw [except_bind_ok] at h
  obtain ⟨v, hv, h⟩ := h
  rw [except_bind_ok] at h
  obtain ⟨n', hn, h⟩ := h
  by_cases hc : check n' = true
  · rw [if_pos hc] at h
    injection h with h2
    subst h2
    exact hc
  · rw [if_neg hc] at h
    exact Except.noConfusion h

theorem optFloat_ok (fields : List (String × Json)) (k : String) (check : ℚ → Bool)
    (q : ℚ) (h : optFloat fields k check = Except.ok (Option.some q)) :
    check q = true := by
  unfold optFloat at h
  cases hg : jsonGet k fields with
  | none => rw [hg] at h; simp at h
  | some v =>
      rw [hg] at h
      cases v <;> simp only [asFloat, Bind.bind, Except.bind] at h <;>
        try exact Except.noConfusion h
      case null => simp at h
      case int n =>
        split at h
        · injection h with h2
          injection h2 with h3
          subst h3
          assumption
        · exact Except.noConfusion h
      case float q' =>
        split at h
        · injection h with h2
          injection h2 with h3
          subst h3
          assumption
        · exact Except.noConfusion h

theorem optInt_ok (fields : List (String × Json)) (k : String) (check : Int → Bool)
    (n : Int) (h : optInt fields k check = Except.ok (Option.some n)) :
    check n = true := by
  unfold optInt at h
  cases hg : jsonGet k fields with
  | none => rw [hg] at h; simp at h
  | some v =>
      rw [hg] at h
      cases v <;> simp only [asInt, Bind.bind, Except.bind] at h <;>
        try exact Except.noConfusion h
      case null => simp at h
      case int n' =>
        split at h
        · injection h with h2
          injection h2 with h3
          subst h3
          assumption
        · exact Except.noConfusion h

theorem optAirportCode_ok (fields : List (String × Json)) (s : String)
    (h : optAirportCode fields = Except.ok (Option.some s)) : s.length = 3 := by
  unfold optAirportCode at h
  cases hg : jsonGet "airport_code" fields with
  | none => rw [hg] at h; simp at h
  | some v =>
      rw [hg] at h
      cases v <;> simp only [asStr, Bind.bind, Except.bind] at h <;>
        try exact Except.noConfusion h
      case null => simp at h
      case str s' =>
        split at h
        · injection h with h2
          injection h2 with h3
          subst h3
          rename_i hc
          simp only [Bool.and_eq_true, decide_eq_true_eq] at hc
          omega
        · exact Except.noConfusion h

/-- A city record that passes validation satisfies all documented field
constraints. -/
theorem validateCityInfo_ok (fields : List (String × Json)) (c : CityInfo)
    (h : validateCityInfo fields = Except.ok c) : CityWithinConstraints c := by
  unfold validateCityInfo at h
  rw [except_bind_ok] at h
  obtain ⟨name, hname, h⟩ := h
  rw [except_bind_ok] at h
  obtain ⟨iscap, hcap, h⟩ := h
  rw [except_bind_ok] at h
  obtain ⟨desc, hdesc, h⟩ := h
  rw [except_bind_ok] at h
  obtain ⟨fact, hfact, h⟩ := h
  rw [except_bind_ok] at h
  obtain ⟨asm, hasm, h⟩ := h
  rw [except_bind_ok] at h
  obtain ⟨ask, hask, h⟩ := h
  rw [except_bind_ok] at h
  obtain ⟨pop, hpop, h⟩ := h
  rw [except_bind_ok] at h
  obtain ⟨sci, hsci, h⟩ := h
  rw [except_bind_ok] at h
  obtain ⟨scir, hscir, h⟩ := h
  rw [except_bind_ok] at h
  obtain ⟨nsi, hnsi, h⟩ := h
  rw [except_bind_ok] at h
  obtain ⟨nci, hnci, h⟩ := h
  rw [except_bind_ok] at h
  obtain ⟨ac, hac, h⟩ := h
  injection h with h2
  subst h2
  refine ⟨reqStr_ok _ _ _ _ hname, reqStr_ok _ _ _ _ hdesc,
    reqStr_ok _ _ _ _ hfact, ?_, ?_, ?_, ?_, ?_, ?_, ?_⟩
  · simpa using reqFloat_ok _ _ _ _ hasm
  · simpa using reqFloat_ok _ _ _ _ hask
  · simpa using reqInt_ok _ _ _ _ hpop
  · intro q hq
    subst hq
    simpa using optFloat_ok _ _ _ _ hsci
  · intro q hq
    subst hq
    simpa using optFloat_ok _ _ _ _ hnsi
  · intro q hq
    subst hq
    simpa using optFloat_ok _ _ _ _ hnci
  · intro s hs
    subst hs
    exact optAirportCode_ok _ _ hac

/-- Every entry of a validated city list satisfies the constraints. -/
theorem validateCities_ok (items : List Json) (cs : List CityInfo)
    (h : validateCities items = Except.ok cs) :
    ∀ c ∈ cs, CityWithinConstraints c := by
  induction items generalizing cs with
  | nil =>
      unfold validateCities at h
      injection h with h2
      subst h2
      intro c hc
      cases hc
  | cons j rest ih =>
      unfold validateCities at h
      cases j <;> try exact Except.noConfusion h
      case obj f =>
        rw [except_bind_ok] at h
        obtain ⟨c0, hc0, h⟩ := h
        rw [except_bind_ok] at h
        obtain ⟨cs', hcs, h⟩ := h
        injection h with h2
        subst h2
        intro c hc
        rcases List.mem_cons.mp hc with rfl | hmem
        · exact validateCityInfo_ok _ _ hc0
        · exact ih cs' hcs c hmem

/-- A validated `CitiesResponse` has at most 5 cities, all within the
documented constraints. -/
theorem validateCitiesResponse_ok (fields : List (String × Json))
    (cs : List CityInfo) (h : validateCitiesResponse fields = Except.ok cs) :
    cs.length ≤ 5 ∧ ∀ c ∈ cs, CityWithinConstraints c := by
  unfold validateCitiesResponse at h
  rw [except_bind_ok] at h
  obtain ⟨v, hv, h⟩ := h
  cases v <;> try exact Except.noConfusion h
  case arr items =>
    rw [except_bind_ok] at h
    obtain ⟨cs', hcs, h⟩ := h
    by_cases hlen : cs'.length ≤ 5
    · rw [if_pos hlen] at h
      injection h with h2
      subst h2
      exact ⟨hlen, validateCities_ok _ _ hcs⟩
    · rw [if_neg hlen] at h
      exact Except.noConfusion h

/-- The `CitiesResponse(**data)` step: success implies the constraints. -/
theorem parseCitiesResponse_ok (d : Json) (cs : List CityInfo)
    (h : parseCitiesResponse d = Except.ok cs) :
    cs.length ≤ 5 ∧ ∀ c ∈ cs, CityWithinConstraints c := by
  unfold parseCitiesResponse at h
  cases d <;> try exact Except.noConfusion h
  case obj fields =>
    dsimp only at h
    cases hv : validateCitiesResponse fields with
    | error msg => rw [hv] at h; exact Except.noConfusion h
    | ok cs' =>
        rw [hv] at h
        injection h with h2
        subst h2
        exact validateCitiesResponse_ok _ _ hv

/-- Every entry of a successfully built `[CityInfo(**c) for c in ...]`
comprehension satisfies the constraints. -/
theorem validateCityList_ok (items : List Json) (cs : List CityInfo)
    (h : validateCityList items = Except.ok cs) :
    ∀ c ∈ cs, CityWithinConstraints c := by
  induction items generalizing cs with
  | nil =>
      unfold validateCityList at h
      injection h with h2
      subst h2
      intro c hc
      cases hc
  | cons j rest ih =>
      unfold validateCityList at h
      cases j <;> try exact Except.noConfusion h
      case obj f =>
        dsimp only at h
        cases hv : validateCityInfo f with
        | error msg => rw [hv] at h; exact Except.noConfusion h
        | ok c0 =>
            rw [hv] at h
            dsimp only at h
            cases hr : validateCityList rest with
            | error e => rw [hr] at h; exact Except.noConfusion h
            | ok cs' =>
                rw [hr] at h
                dsimp only at h
                injection h with h2
                subst h2
                intro c hc
                rcases List.mem_cons.mp hc with rfl | hmem
                · exact validateCityInfo_ok _ _ hv
                · exact ih cs' hr c hmem

/-- C6 (amended): whenever `get_cities_info` returns successfully, every
returned `CityInfo` satisfies the documented field constraints (name at
most 100 characters, description and interesting fact at most 250,
areas and population strictly positive, the optional indices in
`[0, 100]` when present, and `airport_code` either `None` or exactly 3
characters), and any response that fails the schema is rejected by an
exception before anything could be persisted; but only the providers
that validate through `CitiesResponse` (OpenAI, Mistral, Groq) cap the
list at 5 cities — the per-city providers (Anthropic, Google, AI21,
Cohere, DeepSeek) return every valid city the vendor sends, with no
length bound. -/
theorem C6_theorem (loads : String → Except String Json) (content : String)
    (cities : List CityInfo) (input : List (String × Json))
    (citiesU : List CityInfo) :
    (openai_get_cities_info loads content = Except.ok cities →
        cities.length ≤ 5 ∧ ∀ c ∈ cities, CityWithinConstraints c)
  ∧ (anthropic_get_cities_info (Option.some input) = Except.ok citiesU →
        ∀ c ∈ citiesU, CityWithinConstraints c) := by
  constructor
  case right =>
    intro h
    unfold anthropic_get_cities_info at h
    dsimp only at h
    cases hg : jsonGet "cities" input with
    | none =>
        rw [hg] at h
        dsimp only [pyIterate, validateCityList] at h
        injection h with h2
        subst h2
        intro c hc
        cases hc
    | some v =>
        rw [hg] at h
        dsimp only at h
        cases hit : pyIterate v with
        | error e => rw [hit] at h; exact Except.noConfusion h
        | ok items =>
            rw [hit] at h
            dsimp only at h
            cases hval : validateCityList items with
            | error e =>
                rw [hval] at h
                cases e <;> exact Except.noConfusion h
            | ok cs' =>
                rw [hval] at h
                dsimp only at h
                injection h with h2
                subst h2
                exact validateCityList_ok items cs' hval
  case left =>
  intro h
  unfold openai_get_cities_info at h
  cases hl : loads (if content = "" then "\x7b\x7d" else content) with
  | error e => rw [hl] at h; exact Except.noConfusion h
  | ok data =>
      rw [hl] at h
      dsimp only at h
      cases hpc : pyContains "cities" data with
      | error e => rw [hpc] at h; exact Except.noConfusion h
      | ok b =>
          rw [hpc] at h
          cases b with
          | false => exact parseCitiesResponse_ok _ _ h
          | true =>
              cases hidx : jsonIndexStr "cities" data with
              | error e => rw [hidx] at h; exact Except.noConfusion h
              | ok v =>
                  rw [hidx] at h
                  dsimp only at h
                  cases hit : pyIterate v with
                  | error e => rw [hit] at h; exact Except.noConfusion h
                  | ok items =>
                      rw [hit] at h
                      dsimp only at h
                      cases hsan : sanitizeCities items with
                      | error e => rw [hsan] at h; exact Except.noConfusion h
                      | ok items' =>
                          rw [hsan] at h
                          dsimp only at h
                          cases data <;> exact parseCitiesResponse_ok _ _ h

/-- C6 witness: a concrete one-city response passes validation and the
returned record satisfies all constraints. -/
theorem C6_witness :
    [sampleCityInfo].length ≤ 5 ∧ ∀ c ∈ [sampleCityInfo], CityWithinConstraints c :=
  (C6_theorem (fun _ => Except.ok sampleCitiesJson) "x" [sampleCityInfo] [] []).1
    (by rfl)

/-- C6 counterexample: the Anthropic cities path, given a tool input
whose `cities` list holds six fully valid cities, returns all six —
refuting the claim that every provider returns at most 5 cities. -/
theorem C6_counterexample :
    anthropic_get_cities_info
        (Option.some [("cities", Json.arr (sixCityNames.map cityJsonNamed))])
      = Except.ok (sixCityNames.map sampleCityNamed)
    ∧ (sixCityNames.map sampleCityNamed).length = 6
    ∧ decide ((sixCityNames.map sampleCityNamed).length ≤ 5) = false := by
  refine ⟨rfl, rfl, rfl⟩

theorem pyContains_no_raw (k : String) (j : Json) :
    raisesRawLibError (pyContains k j) = false := by
  cases j <;> rfl

theorem jsonIndexStr_no_raw (k : String) (j : Json) :
    raisesRawLibError (jsonIndexStr k j) = false := by
  cases j
  case obj fields =>
    unfold jsonIndexStr
    dsimp only
    cases jsonGet k fields <;> rfl
  all_goals rfl

theorem pyIterate_no_raw (j : Json) :
    raisesRawLibError (pyIterate j) = false := by
  cases j <;> rfl

theorem sanitizeCityJson_no_raw (j : Json) :
    raisesRawLibError (sanitizeCityJson j) = false := by
  cases j <;> unfold sanitizeCityJson <;> try rfl
  case obj fields =>
    dsimp only
    by_cases hmem : (fields.any fun kv => kv.1 = "airport_code") = true
    · rw [if_pos hmem]
      cases hg : jsonGet "airport_code" fields with
      | none => rfl
      | some v =>
          cases v <;> try rfl
          next st =>
            dsimp only
            by_cases hl : st.length < 3
            · rw [if_pos hl]; rfl
            · rw [if_neg hl]; rfl
    · rw [if_neg hmem]; rfl
  case arr items =>
    dsimp only
    by_cases hmem : (items.any fun j =>
        match j with
        | Json.str s => s = "airport_code"
        | _ => false) = true
    · rw [if_pos hmem]; rfl
    · rw [if_neg hmem]; rfl
  case str st =>
    dsimp only
    by_cases hs : substrContains ("airport_code").data st.data = true
    · rw [if_pos hs]; rfl
    · rw [if_neg hs]; rfl

theorem sanitizeCities_no_raw (items : List Json) :
    raisesRawLibError (sanitizeCities items) = false := by
  induction items with
  | nil => rfl
  | cons c rest ih =>
      unfold sanitizeCities
      simp only [Bind.bind, Except.bind]
      cases hc : sanitizeCityJson c with
      | error e =>
          have hnc := sanitizeCityJson_no_raw c
          rw [hc] at hnc
          exact hnc
      | ok c' =>
          cases hr : sanitizeCities rest with
          | error e =>
              rw [hr] at ih
              exact ih
          | ok lst => rfl

theorem parseCitiesResponse_no_raw (d : Json) :
    raisesRawLibError (parseCitiesResponse d) = false := by
  cases d <;> unfold parseCitiesResponse <;> try rfl
  case obj fields =>
    dsimp only
    cases validateCitiesResponse fields <;> rfl

/-- A key that looks up successfully is present under `in`. -/
theorem jsonGet_some_any (k : String) (fields : List (String × Json)) (v : Json)
    (h : jsonGet k fields = Option.some v) :
    (fields.any fun kv => kv.1 = k) = true := by
  induction fields with
  | nil => exact Option.noConfusion h
  | cons kv rest ih =>
      obtain ⟨k0, v0⟩ := kv
      unfold jsonGet at h
      by_cases hk : k0 = k
      · simp [hk]
      · rw [if_neg hk] at h
        simp [List.any_cons, hk, ih h]

/-- C2 (amended): for every vendor response content string, if JSON
decoding of the (possibly sanitized/extracted) content fails or the
decoded JSON object fails schema validation, then `get_country_info`
(OpenAI, Mistral, Cohere — after extraction/sanitization),
`get_continent_info` and `get_cities_info` raise a `ValueError`, and no
raw `JSONDecodeError` or `ValidationError` ever escapes; however, a
decoded value that is not a JSON object (so that `Model(**data)` is
applied to a non-mapping), or a decoded `cities` member whose elements
do not support Python membership tests, makes the glue raise a raw
`TypeError` before validation is reached. -/
theorem C2_theorem (loads : String → Except String Json)
    (sanitize : String → String) (content : String) :
    raisesRawLibError (openai_get_country_info loads content) = false
  ∧ raisesRawLibError (mistral_get_country_info loads content) = false
  ∧ raisesRawLibError (cohere_get_country_info sanitize loads content) = false
  ∧ raisesRawLibError (openai_get_continent_info loads content) = false
  ∧ raisesRawLibError (openai_get_cities_info loads content) = false
  ∧ (∀ e, loads (if content = "" then "\x7b\x7d" else content) = Except.error e →
        openai_get_country_info loads content
          = Except.error
              (PyExc.valueError ("Failed to parse country info: " ++ e)))
  ∧ (∀ fields msg,
        loads (if content = "" then "\x7b\x7d" else content)
          = Except.ok (Json.obj fields) →
        (Json.obj fields).falsy = false →
        validateCountryInfo fields = Except.error msg →
        openai_get_country_info loads content
          = Except.error
              (PyExc.valueError ("Failed to parse country info: " ++ msg)))
  ∧ (∀ e, loads (if content = "" then "\x7b\x7d" else content) = Except.error e →
        mistral_get_country_info loads content
          = Except.error
              (PyExc.valueError ("Failed to parse country info: " ++ e)))
  ∧ (∀ fields msg,
        loads (if content = "" then "\x7b\x7d" else content)
          = Except.ok (Json.obj fields) →
        (Json.obj fields).falsy = false →
        validateCountryInfo fields = Except.error msg →
        mistral_get_country_info loads content
          = Except.error
              (PyExc.valueError ("Failed to parse country info: " ++ msg)))
  ∧ (∀ e, loads (sanitize (try_extract_json content)) = Except.error e →
        cohere_get_country_info sanitize loads content
          = Except.error
              (PyExc.valueError ("Failed to parse country info: " ++ e)))
  ∧ (∀ fields msg,
        loads (sanitize (try_extract_json content)) = Except.ok (Json.obj fields) →
        validateCountryInfo fields = Except.error msg →
        cohere_get_country_info sanitize loads content
          = Except.error
              (PyExc.valueError ("Failed to parse country info: " ++ msg)))
  ∧ (∀ e, loads (if content = "" then "\x7b\x7d" else content) = Except.error e →
        openai_get_continent_info loads content
          = Except.error
              (PyExc.valueError ("Failed to parse continent info: " ++ e)))
  ∧ (∀ fields msg,
        loads (if content = "" then "\x7b\x7d" else content)
          = Except.ok (Json.obj fields) →
        validateContinentInfo fields = Except.error msg →
        openai_get_continent_info loads content
          = Except.error
              (PyExc.valueError ("Failed to parse continent info: " ++ msg)))
  ∧ (∀ e, loads (if content = "" then "\x7b\x7d" else content) = Except.error e →
        openai_get_cities_info loads content
          = Except.error
              (PyExc.valueError ("Failed to parse cities info: " ++ e)))
  ∧ (∀ fields items items2 msg,
        loads (if content = "" then "\x7b\x7d" else content)
          = Except.ok (Json.obj fields) →
        jsonGet "cities" fields = Option.some (Json.arr items) →
        sanitizeCities items = Except.ok items2 →
        validateCitiesResponse (jsonSet "cities" (Json.arr items2) fields)
          = Except.error msg →
        openai_get_cities_info loads content
          = Except.error
              (PyExc.valueError ("Failed to parse cities info: " ++ msg))) := by
  refine ⟨?_, ?_, ?_, ?_, ?_, ?_, ?_, ?_, ?_, ?_, ?_, ?_, ?_, ?_, ?_⟩
  · unfold openai_get_country_info
    cases hl : loads (if content = "" then "\x7b\x7d" else content) with
    | error e => rfl
    | ok data =>
        dsimp only
        by_cases hf : data.falsy = true
        · rw [if_pos hf]; rfl
        · rw [if_neg hf]
          cases data <;> try rfl
          next fields =>
            dsimp only
            cases validateCountryInfo fields <;> rfl
  · unfold mistral_get_country_info
    cases hl : loads (if content = "" then "\x7b\x7d" else content) with
    | error e => rfl
    | ok data =>
        dsimp only
        by_cases hf : data.falsy = true
        · rw [if_pos hf]; rfl
        · rw [if_neg hf]
          cases data <;> try rfl
          next fields =>
            dsimp only
            cases validateCountryInfo fields <;> rfl
  · unfold cohere_get_country_info
    cases hl : loads (sanitize (try_extract_json content)) with
    | error e => rfl
    | ok data =>
        dsimp only
        cases data <;> try rfl
        case obj fields =>
          dsimp only
          cases validateCountryInfo fields <;> rfl
  · unfold openai_get_continent_info
    cases hl : loads (if content = "" then "\x7b\x7d" else content) with
    | error e => rfl
    | ok data =>
        dsimp only
        cases data <;> try rfl
        next fields =>
          dsimp only
          cases validateContinentInfo fields <;> rfl
  · unfold openai_get_cities_info
    cases hl : loads (if content = "" then "\x7b\x7d" else content) with
    | error e => rfl
    | ok data =>
        dsimp only
        cases hpc : pyContains "cities" data with
        | error e =>
            dsimp only
            have hnc := pyContains_no_raw "cities" data
            rw [hpc] at hnc
            exact hnc
        | ok b =>
            cases b with
            | false => exact parseCitiesResponse_no_raw data
            | true =>
                dsimp only
                cases hidx : jsonIndexStr "cities" data with
                | error e =>
                    dsimp only
                    have hnc := jsonIndexStr_no_raw "cities" data
                    rw [hidx] at hnc
                    exact hnc
                | ok v =>
                    dsimp only
                    cases hit : pyIterate v with
                    | error e =>
                        dsimp only
                        have hnc := pyIterate_no_raw v
                        rw [hit] at hnc
                        exact hnc
                    | ok items =>
                        dsimp only
                        cases hsan : sanitizeCities items with
                        | error e =>
                            dsimp only
                            have hnc := sanitizeCities_no_raw items
                            rw [hsan] at hnc
                            exact hnc
                        | ok items' =>
                            dsimp only
                            cases data <;> exact parseCitiesResponse_no_raw _
  · intro e he
    unfold openai_get_country_info
    rw [he]
  · intro fields msg hl hf hv
    unfold openai_get_country_info
    rw [hl]
    dsimp only
    simp [hf, hv]
  · intro e he
    unfold mistral_get_country_info
    rw [he]
  · intro fields msg hl hf hv
    unfold mistral_get_country_info
    rw [hl]
    dsimp only
    simp [hf, hv]
  · intro e he
    unfold cohere_get_country_info
    rw [he]
  · intro fields msg hl hv
    unfold cohere_get_country_info
    rw [hl]
    dsimp only
    simp [hv]
  · intro e he
    unfold openai_get_continent_info
    rw [he]
  · intro fields msg hl hv
    unfold openai_get_continent_info
    rw [hl]
    dsimp only
    simp [hv]
  · intro e he
    unfold openai_get_cities_info
    rw [he]
  · intro fields items items2 msg hl hget hsan herr
    unfold openai_get_cities_info
    rw [hl]
    dsimp only
    have hpc : pyContains "cities" (Json.obj fields) = Except.ok true := by
      have hany := jsonGet_some_any "cities" fields (Json.arr items) hget
      unfold pyContains
      dsimp only
      rw [hany]
    rw [hpc]
    dsimp only
    have hidx : jsonIndexStr "cities" (Json.obj fields)
        = Except.ok (Json.arr items) := by
      unfold jsonIndexStr
      dsimp only
      rw [hget]
    rw [hidx]
    dsimp only [pyIterate]
    rw [hsan]
    dsimp only [parseCitiesResponse]
    rw [herr]

/-- C2 witness: a decoding failure surfaces as a `ValueError` whose
message embeds the `JSONDecodeError` text. -/
theorem C2_witness :
    openai_get_country_info (fun _ => Except.error "Expecting value") "bad"
      = Except.error
          (PyExc.valueError ("Failed to parse country info: " ++ "Expecting value")) :=
  (C2_theorem (fun _ => Except.error "Expecting value") id "bad").2.2.2.2.2.1
    "Expecting value" rfl

/-- C2 counterexample: the decoded object (a dict whose `cities` member
is `[1]`) fails schema validation, yet `get_cities_info` raises a raw
`TypeError` from the pre-validation sanitize step (`"airport_code" in 1`)
rather than the `ValueError` the claim requires. -/
theorem C2_counterexample :
    openai_get_cities_info
        (fun _ => Except.ok (Json.obj [("cities", Json.arr [Json.int 1])])) "x"
      = Except.error (PyExc.typeError "argument of type int is not iterable")
    ∧ (PyExc.typeError "argument of type int is not iterable").isValueError
        = false
    ∧ raisesRawLibError
        (openai_get_cities_info
          (fun _ => Except.ok (Json.obj [("cities", Json.arr [Json.int 1])])) "x")
        = false := by
  refine ⟨rfl, rfl, rfl⟩

/-- With unique names, `find?` by name locates exactly the known row. -/
theorem find_row_by_name (table : List CountryTableRow) (row : CountryTableRow)
    (n : String) (hnd : (table.map fun r => r.name).Nodup) (hrow : row ∈ table)
    (hname : row.name = n) :
    (table.find? fun r => decide (r.name = n)) = Option.some row := by
  induction table with
  | nil => cases hrow
  | cons a rest ih =>
      rw [List.map_cons, List.nodup_cons] at hnd
      rcases List.mem_cons.mp hrow with rfl | hmem
      · rw [List.find?_cons_of_pos _ (by simp [hname])]
      · have hne : ¬(a.name = n) := by
          intro hcontra
          apply hnd.1
          rw [hcontra, ← hname]
          exact List.mem_map_of_mem (fun r => r.name) hmem
        rw [List.find?_cons_of_neg _ (by simp [hne])]
        exact ih hnd.2 hmem

/-- C7: `upsert_country` is insert-or-update on the unique country name:
with no existing row of that name a fresh row is inserted carrying every
supplied field including the `ai_model_id` provenance and the new id is
returned; with an existing row its data fields, `ai_model_id` and
`continent_id` are overwritten (id and name kept, all other rows and all
ids/names unchanged) and its `country_id` is returned; composed with the
transaction skeleton, the statement's result is committed and its id
returned. -/
theorem C7_theorem (countryName : String) (countryInfo : CountryInfo)
    (aiModelId : Int) (continentId : Option Int) (nextId : Int)
    (table : List CountryTableRow) :
    ((∀ row ∈ table, row.name ≠ countryName) →
        upsertCountryStmt countryName countryInfo aiModelId continentId nextId table
          = (table ++
              [{ country_id := nextId, name := countryName,
                 ai_model_id := aiModelId, continent_id := continentId,
                 info := countryInfo }],
             nextId))
  ∧ (∀ row, (table.map fun r => r.name).Nodup → row ∈ table →
        row.name = countryName →
        (upsertCountryStmt countryName countryInfo aiModelId continentId nextId
            table).2 = row.country_id
        ∧ doUpdateSet row aiModelId continentId countryInfo
            ∈ (upsertCountryStmt countryName countryInfo aiModelId continentId
                nextId table).1
        ∧ (∀ r ∈ table, r.name ≠ countryName →
            r ∈ (upsertCountryStmt countryName countryInfo aiModelId continentId
                  nextId table).1)
        ∧ ((upsertCountryStmt countryName countryInfo aiModelId continentId
              nextId table).1.map fun r => (r.country_id, r.name))
            = (table.map fun r => (r.country_id, r.name)))
  ∧ upsert_country
      (fun t => Except.ok
        ((upsertCountryStmt countryName countryInfo aiModelId continentId nextId
            t).1,
         Option.some
           (upsertCountryStmt countryName countryInfo aiModelId continentId nextId
              t).2))
      table
      = (Except.ok
          (upsertCountryStmt countryName countryInfo aiModelId continentId nextId
            table).2,
         { committed :=
             (upsertCountryStmt countryName countryInfo aiModelId continentId
               nextId table).1,
           pending :=
             (upsertCountryStmt countryName countryInfo aiModelId continentId
               nextId table).1,
           closed := true }) := by
  refine ⟨?_, ?_, ?_⟩
  · intro hmiss
    unfold upsertCountryStmt
    have hnone : (table.find? fun r => decide (r.name = countryName))
        = Option.none := by
      rw [List.find?_eq_none]
      intro x hx
      simp [hmiss x hx]
    rw [hnone]
  · intro row hnd hrow hname
    unfold upsertCountryStmt
    rw [find_row_by_name table row countryName hnd hrow hname]
    refine ⟨rfl, ?_, ?_, ?_⟩
    · exact List.mem_map.mpr ⟨row, hrow, by simp [doUpdateSet, hname]⟩
    · intro r hr hne
      refine List.mem_map.mpr ⟨r, hr, by simp [hne]⟩
    · rw [List.map_map]
      apply List.map_congr_left
      intro r _
      by_cases hn : r.name = countryName <;> simp [hn]
  · simp [upsert_country, upsertSkeleton]

/-- C7 witness: inserting "France" into an empty table appends a row with
all supplied fields and returns the fresh id; upserting it again (new
provenance id 4, new continent 2) returns the existing row's id 10. -/
theorem C7_witness :
    upsertCountryStmt "France" sampleCountryInfo 3 (Option.some 1) 10 []
      = ([franceRow], 10)
    ∧ (upsertCountryStmt "France" sampleCountryInfo 4 (Option.some 2) 11
        [franceRow]).2 = 10 :=
  ⟨by
    have h := (C7_theorem ("France") sampleCountryInfo 3 (Option.some 1) 10 []).1
      (by intro row hrow; cases hrow)
    simpa [franceRow] using h,
   ((C7_theorem ("France") sampleCountryInfo 4 (Option.some 2) 11
      [franceRow]).2.1 franceRow (by simp) (by simp) rfl).1⟩
